import Mathlib

/-!
# Visualization controller: shallow embedding

A model of `src/controllers/visualizationController.js` (Express handlers in front of
an out-of-process clustering engine) together with `models/Visualization.js`.

JavaScript values are the inductive `JsVal`; the database table, the file system, the
responses sent and the engine invocations made are an explicit state threaded through
the handlers; a thrown exception or a rejected promise is the `threw` outcome of a step.
Library functions the source calls (`path.join`, `fs.existsSync`, `fs.unlinkSync`,
`JSON.parse`, `JSON.stringify`, the Sequelize model methods) are modelled after their
documented behaviour or taken as parameters of the environment `Env`.
-/

namespace VisualizationController

/-! ## JavaScript values -/

/-- A JavaScript value as it reaches the handlers: request bodies and engine results are
parsed JSON, property reads may yield `undefined`. A number is carried by its canonical
rendering (what `Number.prototype.toString` returns for it, e.g. `"3"`, `"0.75"`). -/
inductive JsVal where
  | undefined : JsVal
  | null : JsVal
  | bool (b : Bool) : JsVal
  | num (rendering : String) : JsVal
  | str (s : String) : JsVal
  | arr (items : List JsVal) : JsVal
  | obj (fields : List (String × JsVal)) : JsVal

/-- An `Error` object; the handlers only ever read its `message`. -/
structure JsError where
  message : String

namespace JsVal

/-- JavaScript truthiness (`ToBoolean`). -/
def truthy : JsVal → Bool
  | undefined => false
  | null => false
  | bool b => b
  | num r => !(r == "0" || r == "NaN")
  | str s => !(s == "")
  | arr _ => true
  | obj _ => true

/-- The expression `a || b`. -/
def or (a b : JsVal) : JsVal := if a.truthy then a else b

/-- Own property lookup in an object literal parsed from JSON. -/
def lookup (k : String) : List (String × JsVal) → JsVal
  | [] => undefined
  | (k', v) :: rest => if k' == k then v else lookup k rest

/-- The expression `v.k` for the property names the handlers read (`success`, `error`,
`columns`, ...): `undefined` and `null` throw a `TypeError`, an object yields its own
property or `undefined`, every other value has no such property. -/
def getProp (v : JsVal) (k : String) : Except JsError JsVal :=
  match v with
  | undefined => .error ⟨"Cannot read properties of undefined (reading '" ++ k ++ "')"⟩
  | null => .error ⟨"Cannot read properties of null (reading '" ++ k ++ "')"⟩
  | obj fields => .ok (lookup k fields)
  | _ => .ok undefined

/-- A destructuring default `{ k = d } = ...`: the default applies to `undefined` only. -/
def withDefault (v d : JsVal) : JsVal :=
  match v with
  | undefined => d
  | _ => v

/-- Does the object literal carry an own property `toString`? A JSON value is never a
function, so such a property makes `x.toString()` fail. -/
def hasOwnToString (fields : List (String × JsVal)) : Bool :=
  fields.any (fun p => p.1 == "toString")

mutual
/-- Conversion `ToString(v)` of an array element inside `Array.prototype.join`:
`undefined` and `null` render as the empty string. -/
def elemToString : JsVal → Except JsError String
  | undefined => .ok ""
  | null => .ok ""
  | bool b => .ok (if b then "true" else "false")
  | num r => .ok r
  | str s => .ok s
  | arr items => joinItems items
  | obj fields =>
      if hasOwnToString fields then .error ⟨"Cannot convert object to primitive value"⟩
      else .ok "[object Object]"
/-- The loop of `Array.prototype.join` with separator `","`. -/
def joinItems : List JsVal → Except JsError String
  | [] => .ok ""
  | [x] => elemToString x
  | x :: y :: rest =>
      match elemToString x with
      | .error e => .error e
      | .ok sx =>
          match joinItems (y :: rest) with
          | .error e => .error e
          | .ok sr => .ok (sx ++ "," ++ sr)
end

/-- The method call `v.toString()`, where `expr` is the source text of the receiver
(it appears in the message of the `TypeError` for a non-callable `toString`). -/
def callToString (expr : String) : JsVal → Except JsError String
  | undefined => .error ⟨"Cannot read properties of undefined (reading 'toString')"⟩
  | null => .error ⟨"Cannot read properties of null (reading 'toString')"⟩
  | bool b => .ok (if b then "true" else "false")
  | num r => .ok r
  | str s => .ok s
  | arr items => joinItems items
  | obj fields =>
      if hasOwnToString fields then .error ⟨expr ++ ".toString is not a function"⟩
      else .ok "[object Object]"

end JsVal

/-! ## `path.join` (POSIX) -/

/-- Split a character list at every `/`; always returns at least one segment. -/
def splitSlash : List Char → List (List Char)
  | [] => [[]]
  | c :: cs =>
      if c = '/' then [] :: splitSlash cs
      else
        match splitSlash cs with
        | [] => [[c]]
        | seg :: segs => (c :: seg) :: segs

/-- One step of Node's `normalizeString`: the stack holds the segments kept so far,
innermost first. Empty segments and `.` are skipped; `..` removes the innermost kept
segment unless that is itself `..` or there is none, in which case it is kept only when
the path is relative (`allowAboveRoot`). -/
def normStep (allowAboveRoot : Bool) (stack : List (List Char)) (seg : List Char) :
    List (List Char) :=
  if seg = [] ∨ seg = ['.'] then stack
  else if seg = ['.', '.'] then
    match stack with
    | [] => if allowAboveRoot then [seg] else []
    | top :: below =>
        if top = ['.', '.'] then (if allowAboveRoot then seg :: stack else stack)
        else below
  else seg :: stack

/-- Segments joined with `/`. -/
def joinSlash : List (List Char) → List Char
  | [] => []
  | [s] => s
  | s :: t :: rest => s ++ '/' :: joinSlash (t :: rest)

/-- Node's `path.posix.normalize` on a character list. -/
def normalizeChars (p : List Char) : List Char :=
  if p = [] then ['.']
  else
    let isAbsolute := p.head? = some '/'
    let trailingSeparator := p.getLast? = some '/'
    let kept := (List.foldl (normStep (!isAbsolute)) [] (splitSlash p)).reverse
    let body := joinSlash kept
    if body = [] then
      (if isAbsolute then ['/'] else if trailingSeparator then ['.', '/'] else ['.'])
    else
      let body := if trailingSeparator then body ++ ['/'] else body
      if isAbsolute then '/' :: body else body

/-- Node's `path.posix.join` on strings: empty arguments are skipped, the rest are
glued with `/` and normalised. -/
def pathJoinStrings (parts : List String) : String :=
  let nonEmpty := (parts.map String.data).filter (fun p => p ≠ [])
  if nonEmpty = [] then "." else String.mk (normalizeChars (joinSlash nonEmpty))

/-- How Node names a rejected argument in an `ERR_INVALID_ARG_TYPE` message. -/
def received : JsVal → String
  | .undefined => "undefined"
  | .null => "null"
  | .bool b => "type boolean (" ++ (if b then "true" else "false") ++ ")"
  | .num r => "type number (" ++ r ++ ")"
  | .str s => "type string ('" ++ s ++ "')"
  | .arr _ => "an instance of Array"
  | .obj _ => "an instance of Object"

/-- The arguments of `path.join` are validated in order (`validateString`): the strings
when all are strings, otherwise the first argument that is not one. -/
def allStrings : List JsVal → Except JsVal (List String)
  | [] => .ok []
  | JsVal.str s :: rest =>
      match allStrings rest with
      | .ok ss => .ok (s :: ss)
      | .error bad => .error bad
  | bad :: _ => .error bad

/-- The call `path.join(...args)` on JavaScript values: a non-string argument throws
`ERR_INVALID_ARG_TYPE`. -/
def pathJoin (args : List JsVal) : Except JsError String :=
  match allStrings args with
  | .error bad =>
      .error ⟨"The \"path\" argument must be of type string. Received " ++ received bad⟩
  | .ok parts => .ok (pathJoinStrings parts)

/-- The directory `path.join(__dirname, "../../uploads")`. -/
def uploadsDir (dirname : String) : String :=
  pathJoinStrings [dirname, "../../uploads"]

/-! ## Environment, persistent world and per-request state -/

/-- What the spawned engine process does: the exit code handed to the `close` listener
(`none` for a process killed by a signal, where Node passes `null`), the chunks delivered
on stdout and stderr, and the paths of the files it wrote (the engine never deletes or
moves files). -/
structure ProcOutcome where
  code : Option Int
  stdout : List String
  stderr : List String
  written : List String

/-- The column types that `models/Visualization.js` declares. -/
inductive ColumnType where
  | string : ColumnType
  | integer : ColumnType
  | float : ColumnType
  | text : ColumnType

/-- Everything the controller takes from outside the repository's code. The database
behind Sequelize is configured in `models/db.js`; how it converts the values written to
a column and the id text of a query are therefore parameters. -/
structure Env where
  /-- The value of `__dirname` : the absolute directory of the controller file. -/
  dirname : String
  /-- The function `JSON.parse`; `none` stands for a thrown `SyntaxError`. -/
  jsonParse : String → Option JsVal
  /-- The function `JSON.stringify` (may return `undefined`). -/
  jsonStringify : JsVal → JsVal
  /-- Rendering of a timestamp in a JSON body. -/
  isoDate : Nat → String
  /-- The engine: what the process spawned for a command and arguments does. -/
  engine : String → List JsVal → ProcOutcome
  /-- What the database stores when a value other than `null` is written to a column of
  the given type, or the error with which it rejects the value. -/
  dbStore : ColumnType → JsVal → Except JsError JsVal
  /-- The primary key the database compares with when a query gives the id as the text
  of a URL (`none` when no key can equal it), or the error with which it rejects the
  text. -/
  readId : String → Except JsError (Option Nat)

/-- The attributes of the model `Visualization` (`models/Visualization.js`), used both
for a model instance in the handler (values as JavaScript holds them, possibly
`undefined`) and for a row of the table `visualizations` (values as the database stores
them). -/
structure Visualization where
  id : Nat
  name : JsVal
  datasetFile : JsVal
  datasetClean : JsVal
  numClusters : JsVal
  keyColumn : JsVal
  columnX : JsVal
  columnY : JsVal
  encoding : JsVal
  delimiter : JsVal
  silhouetteScore : JsVal
  columnsUsed : JsVal
  createdAt : Nat
  updatedAt : Nat

/-- The attribute object handed to `Visualization.create`. -/
structure VisualizationAttrs where
  name : JsVal
  datasetFile : JsVal
  datasetClean : JsVal
  keyColumn : JsVal
  columnX : JsVal
  columnY : JsVal
  numClusters : JsVal
  encoding : JsVal
  delimiter : JsVal
  silhouetteScore : JsVal
  columnsUsed : JsVal

/-- The state that outlives a request: the table, the auto-increment counter, the clock,
whether the database currently fails (every query then rejects with the message), and
the paths that exist on disk as regular files and as directories. -/
structure World where
  table : List Visualization
  nextId : Nat
  now : Nat
  dbError : Option String
  files : List String
  dirs : List String

/-- One response sent with `res.status(code).json(body)`. -/
structure Response where
  status : Nat
  body : JsVal

/-- One invocation `runPythonScript(command, args)` and how its promise settled. -/
structure EngineCall where
  command : String
  args : List JsVal
  settled : Except JsError JsVal

/-- The state a handler runs in: the world, the responses sent so far and the engine
invocations made so far. -/
structure St where
  world : World
  sent : List Response
  calls : List EngineCall

/-- The file `req.file` stored by the upload middleware. -/
structure UploadedFile where
  path : String
  filename : String

/-- The parts of an Express request the handlers read. -/
structure Request where
  body : JsVal
  paramsId : String
  file : Option UploadedFile

/-! ## Steps that may throw -/

/-- Result of running a step: a value, or a thrown error (rejected promise); the state
reached is kept in both cases. -/
inductive Outcome (α : Type) where
  | ok (a : α) (s : St) : Outcome α
  | threw (e : JsError) (s : St) : Outcome α

/-- A step of handler code. -/
def Js (α : Type) : Type := St → Outcome α

namespace Js

/-- Sequencing: a thrown error skips the rest. -/
def bind {α β : Type} (m : Js α) (f : α → Js β) : Js β := fun s =>
  match m s with
  | .ok a s' => f a s'
  | .threw e s' => .threw e s'

/-- The statement `throw e`. -/
def throw {α : Type} (e : JsError) : Js α := fun s => .threw e s

/-- The statement `try { body } catch (error) { handler }`. -/
def tryCatch {α : Type} (body : Js α) (handler : JsError → Js α) : Js α := fun s =>
  match body s with
  | .ok a s' => .ok a s'
  | .threw e s' => handler e s'

instance : Monad Js where
  pure a := fun s => .ok a s
  bind := Js.bind

/-- A pure computation that may throw. -/
def ofExcept {α : Type} : Except JsError α → Js α
  | .ok a => pure a
  | .error e => Js.throw e

end Js

/-- What a finished handler leaves behind; `escaped` is the error of a rejected handler
promise (an exception no `catch` handled). -/
structure Run where
  world : World
  sent : List Response
  calls : List EngineCall
  escaped : Option JsError

/-- Run a handler from a world, with nothing sent and no engine call made yet. -/
def runHandler (h : Js Unit) (w : World) : Run :=
  match h ⟨w, [], []⟩ with
  | .ok _ s => ⟨s.world, s.sent, s.calls, none⟩
  | .threw e s => ⟨s.world, s.sent, s.calls, some e⟩

/-! ## Express, `fs` and Sequelize primitives -/

/-- The call `res.status(code).json(body)`. -/
def resStatusJson (code : Nat) (body : JsVal) : Js Unit := fun s =>
  .ok () { s with sent := s.sent ++ [⟨code, body⟩] }

/-- The call `res.json(body)` : status 200. -/
def resJson (body : JsVal) : Js Unit := resStatusJson 200 body

/-- The call `fs.existsSync(p)` : true for a file or a directory. -/
def existsSync (p : String) : Js Bool := fun s =>
  .ok (decide (p ∈ s.world.files) || decide (p ∈ s.world.dirs)) s

/-- The call `fs.unlinkSync(p)` : removes a regular file, throws for anything else. -/
def unlinkSync (p : String) : Js Unit := fun s =>
  if p ∈ s.world.files then
    .ok () { s with world := { s.world with files := s.world.files.filter (fun q => q ≠ p) } }
  else .threw ⟨"ENOENT: no such file or directory, unlink '" ++ p ++ "'"⟩ s

/-- Is the value `null` or `undefined`? -/
def isNullish : JsVal → Bool
  | .undefined => true
  | .null => true
  | _ => false

/-- Is the value an array or an object? -/
def isArrayOrObject : JsVal → Bool
  | .arr _ => true
  | .obj _ => true
  | _ => false

/-- A value of a new instance: an attribute left `undefined` takes the column's
`defaultValue`. -/
def defaulted (v : JsVal) (dflt : JsVal) : JsVal :=
  match v with
  | .undefined => dflt
  | _ => v

/-- The instance that `Visualization.create(attrs)` builds: the attribute values as
given (an `undefined` stays `undefined`), the defaults of `models/Visualization.js`
(`encoding: "utf-8"`, `delimiter: ","`), the next auto-increment id and the timestamps. -/
def buildInstance (w : World) (a : VisualizationAttrs) : Visualization :=
  { id := w.nextId
    name := a.name
    datasetFile := a.datasetFile
    datasetClean := a.datasetClean
    numClusters := a.numClusters
    keyColumn := a.keyColumn
    columnX := a.columnX
    columnY := a.columnY
    encoding := defaulted a.encoding (.str "utf-8")
    delimiter := defaulted a.delimiter (.str ",")
    silhouetteScore := a.silhouetteScore
    columnsUsed := a.columnsUsed
    createdAt := w.now
    updatedAt := w.now }

/-- Sequelize's schema validation of one attribute: a column declared `allowNull: false`
rejects `null` and `undefined`; a `STRING` or `TEXT` column rejects an array or object. -/
def schemaCheck (field : String) (allowNull isText : Bool) (v : JsVal) : List String :=
  (if !allowNull && isNullish v then
    ["notNull Violation: Visualization." ++ field ++ " cannot be null"] else []) ++
  (if isText && isArrayOrObject v then
    ["string violation: " ++ field ++ " cannot be an array or an object"] else [])

/-- The attributes that Sequelize validates, in the order of `models/Visualization.js`,
each with its `allowNull`, whether its type is `STRING` or `TEXT`, and its value in the
instance (`numClusters` is an `INTEGER`, `silhouetteScore` a `FLOAT`, `columnsUsed` a
`TEXT`, the others `STRING`). The generated `id`, `createdAt` and `updatedAt` are not
validated. -/
def schemaColumns (r : Visualization) : List (String × Bool × Bool × JsVal) :=
  [("name", false, true, r.name),
   ("datasetFile", false, true, r.datasetFile),
   ("datasetClean", true, true, r.datasetClean),
   ("numClusters", false, false, r.numClusters),
   ("keyColumn", true, true, r.keyColumn),
   ("columnX", false, true, r.columnX),
   ("columnY", false, true, r.columnY),
   ("encoding", true, true, r.encoding),
   ("delimiter", true, true, r.delimiter),
   ("silhouetteScore", true, false, r.silhouetteScore),
   ("columnsUsed", true, true, r.columnsUsed)]

/-- The validation errors of an instance, attribute by attribute. -/
def schemaViolations (r : Visualization) : List String :=
  (schemaColumns r).flatMap (fun c => schemaCheck c.1 c.2.1 c.2.2.1 c.2.2.2)

/-- What the database stores in a column: `NULL` for `null` and `undefined`, otherwise
its conversion of the value to the column type. -/
def storeColumn (env : Env) (ty : ColumnType) (v : JsVal) : Except JsError JsVal :=
  if isNullish v then .ok .null else env.dbStore ty v

/-- The row the database stores for an instance, or the error of the first column it
rejects. -/
def storeRow (env : Env) (r : Visualization) : Except JsError Visualization := do
  let name ← storeColumn env .string r.name
  let datasetFile ← storeColumn env .string r.datasetFile
  let datasetClean ← storeColumn env .string r.datasetClean
  let numClusters ← storeColumn env .integer r.numClusters
  let keyColumn ← storeColumn env .string r.keyColumn
  let columnX ← storeColumn env .string r.columnX
  let columnY ← storeColumn env .string r.columnY
  let encoding ← storeColumn env .string r.encoding
  let delimiter ← storeColumn env .string r.delimiter
  let silhouetteScore ← storeColumn env .float r.silhouetteScore
  let columnsUsed ← storeColumn env .text r.columnsUsed
  pure
    { id := r.id
      name := name
      datasetFile := datasetFile
      datasetClean := datasetClean
      numClusters := numClusters
      keyColumn := keyColumn
      columnX := columnX
      columnY := columnY
      encoding := encoding
      delimiter := delimiter
      silhouetteScore := silhouetteScore
      columnsUsed := columnsUsed
      createdAt := r.createdAt
      updatedAt := r.updatedAt }

/-- The call `Visualization.create(attrs)` : the instance is validated first (a
validation error rejects before any query), then inserted (a failing database, or a
value the database rejects, rejects); otherwise the stored row is appended to the table
under a fresh id and the instance, with the values as given, is returned. -/
def Visualization.create (env : Env) (a : VisualizationAttrs) : Js Visualization := fun s =>
  let inst := buildInstance s.world a
  if schemaViolations inst ≠ [] then
    .threw ⟨",\n".intercalate (schemaViolations inst)⟩ s
  else
    match s.world.dbError with
    | some m => .threw ⟨m⟩ s
    | none =>
        match storeRow env inst with
        | .error e => .threw e s
        | .ok row =>
            .ok inst { s with world :=
              { s.world with table := s.world.table ++ [row], nextId := s.world.nextId + 1 } }

/-- The query of `findByPk` : the first row whose primary key equals the key the
database reads in the id text, `none` when there is no such row. -/
def Visualization.lookup (env : Env) (table : List Visualization) (id : String) :
    Except JsError (Option Visualization) :=
  match env.readId id with
  | .error e => .error e
  | .ok none => .ok none
  | .ok (some key) => .ok (table.find? (fun r => r.id == key))

/-- The call `Visualization.findByPk(id)` with the id text of the URL. -/
def Visualization.findByPk (env : Env) (id : String) : Js (Option Visualization) := fun s =>
  match s.world.dbError with
  | some m => .threw ⟨m⟩ s
  | none =>
      match Visualization.lookup env s.world.table id with
      | .error e => .threw e s
      | .ok found => .ok found s

/-- The call `visualization.destroy()` : deletes the row with the instance's key. -/
def Visualization.destroy (v : Visualization) : Js Unit := fun s =>
  match s.world.dbError with
  | some m => .threw ⟨m⟩ s
  | none =>
      .ok () { s with world :=
        { s.world with table := s.world.table.filter (fun r => r.id ≠ v.id) } }

/-- The JSON form of a model instance (`toJSON`) : its values as the instance holds them;
a property whose value is `undefined` is the one that serialisation leaves out. -/
def Visualization.toJson (env : Env) (v : Visualization) : JsVal :=
  .obj [("id", .num (toString v.id)), ("name", v.name), ("datasetFile", v.datasetFile),
    ("datasetClean", v.datasetClean), ("numClusters", v.numClusters),
    ("keyColumn", v.keyColumn), ("columnX", v.columnX), ("columnY", v.columnY),
    ("encoding", v.encoding), ("delimiter", v.delimiter),
    ("silhouetteScore", v.silhouetteScore), ("columnsUsed", v.columnsUsed),
    ("createdAt", .str (env.isoDate v.createdAt)),
    ("updatedAt", .str (env.isoDate v.updatedAt))]

/-! ## The controller -/

/-- The accumulation `dataString += data.toString()` over the chunks of a stream. -/
def collect (chunks : List String) : String :=
  chunks.foldl (fun acc chunk => acc ++ chunk) ""

/-- The `close` listener of `runPythonScript`: how the promise settles for an exit code
and the collected stdout and stderr. -/
def runPythonScript.onClose (env : Env) (code : Option Int) (dataString errorString : String) :
    Except JsError JsVal :=
  if code ≠ some 0 then
    .error ⟨if errorString ≠ "" then errorString else "Python script failed"⟩
  else
    match env.jsonParse dataString with
    | some result => .ok result
    | none => .error ⟨"Failed to parse Python output: " ++ dataString⟩

/-- The helper `runPythonScript(command, args)` awaited by a handler: the process runs
(its written files appear on disk), the promise settles as `onClose` says, and the
invocation is recorded. -/
def runPythonScript (env : Env) (command : String) (args : List JsVal) : Js JsVal := fun s =>
  let proc := env.engine command args
  let settled := runPythonScript.onClose env proc.code (collect proc.stdout) (collect proc.stderr)
  let s' : St :=
    { world := { s.world with files := s.world.files ++ proc.written }
      sent := s.sent
      calls := s.calls ++ [⟨command, args, settled⟩] }
  match settled with
  | .ok result => .ok result s'
  | .error e => .threw e s'

/-- The body `{ error: msg }`. -/
def errorBody (msg : JsVal) : JsVal := .obj [("error", msg)]

/-- Handler `exports.uploadDataset`. -/
def uploadDataset (env : Env) (req : Request) : Js Unit :=
  Js.tryCatch
    (match req.file with
     | none => resStatusJson 400 (errorBody (.str "No file uploaded"))
     | some file => do
        let encoding := (← Js.ofExcept (req.body.getProp "encoding")).withDefault (.str "utf-8")
        let delimiter := (← Js.ofExcept (req.body.getProp "delimiter")).withDefault (.str ",")
        let filePath := file.path
        let result ← runPythonScript env "get_data_info" [.str filePath, encoding, delimiter]
        if !(← Js.ofExcept (result.getProp "success")).truthy then do
          unlinkSync filePath
          resStatusJson 400 (errorBody (← Js.ofExcept (result.getProp "error")))
        else
          resJson (.obj [
            ("filename", .str file.filename),
            ("columns", ← Js.ofExcept (result.getProp "columns")),
            ("numeric_columns", ← Js.ofExcept (result.getProp "numeric_columns")),
            ("null_info", ← Js.ofExcept (result.getProp "null_info")),
            ("has_nulls", ← Js.ofExcept (result.getProp "has_nulls")),
            ("has_duplicates", ← Js.ofExcept (result.getProp "has_duplicates")),
            ("num_rows", ← Js.ofExcept (result.getProp "num_rows")),
            ("num_duplicates", ← Js.ofExcept (result.getProp "num_duplicates"))]))
    (fun error => do
      match req.file with
      | some file => unlinkSync file.path
      | none => pure ()
      resStatusJson 500 (errorBody (.str error.message)))

/-- Handler `exports.cleanData`. -/
def cleanData (env : Env) (req : Request) : Js Unit :=
  Js.tryCatch
    (do
      let filename ← Js.ofExcept (req.body.getProp "filename")
      let cleaningOptions ← Js.ofExcept (req.body.getProp "cleaningOptions")
      let encoding := (← Js.ofExcept (req.body.getProp "encoding")).withDefault (.str "utf-8")
      let delimiter := (← Js.ofExcept (req.body.getProp "delimiter")).withDefault (.str ",")
      let filePath ← Js.ofExcept (pathJoin [.str env.dirname, .str "../../uploads", filename])
      if !(← existsSync filePath) then
        resStatusJson 404 (errorBody (.str "File not found"))
      else do
        let result ← runPythonScript env "clean_data"
          [.str filePath, env.jsonStringify cleaningOptions, encoding, delimiter]
        if !(← Js.ofExcept (result.getProp "success")).truthy then
          resStatusJson 400 (errorBody (← Js.ofExcept (result.getProp "error")))
        else do
          let _sample_rows := (← Js.ofExcept (result.getProp "rows")).or (.arr [])
          resJson (.obj [
            ("success", .bool true),
            ("cleaned_filename", ← Js.ofExcept (result.getProp "cleaned_filename")),
            ("columns", ← Js.ofExcept (result.getProp "columns")),
            ("numeric_columns", (← Js.ofExcept (result.getProp "numeric_columns")).or (.arr [])),
            ("rows_removed", ← Js.ofExcept (result.getProp "rows_removed")),
            ("columns_dropped", (← Js.ofExcept (result.getProp "columns_dropped")).or (.arr [])),
            ("sample_rows", ← Js.ofExcept (result.getProp "rows"))]))
    (fun error => resStatusJson 500 (errorBody (.str error.message)))

/-- Handler `exports.calculateElbow`. -/
def calculateElbow (env : Env) (req : Request) : Js Unit :=
  Js.tryCatch
    (do
      let filename ← Js.ofExcept (req.body.getProp "filename")
      let columnX ← Js.ofExcept (req.body.getProp "columnX")
      let columnY ← Js.ofExcept (req.body.getProp "columnY")
      let encoding := (← Js.ofExcept (req.body.getProp "encoding")).withDefault (.str "utf-8")
      let delimiter := (← Js.ofExcept (req.body.getProp "delimiter")).withDefault (.str ",")
      let filePath ← Js.ofExcept (pathJoin [.str env.dirname, .str "../../uploads", filename])
      if !(← existsSync filePath) then
        resStatusJson 404 (errorBody (.str "File not found"))
      else do
        let result ← runPythonScript env "elbow"
          [.str filePath, columnX, columnY, encoding, delimiter]
        if !(← Js.ofExcept (result.getProp "success")).truthy then
          resStatusJson 400 (errorBody (← Js.ofExcept (result.getProp "error")))
        else
          resJson result)
    (fun error => resStatusJson 500 (errorBody (.str error.message)))

/-- Handler `exports.processClustering`. -/
def processClustering (env : Env) (req : Request) : Js Unit :=
  Js.tryCatch
    (do
      let name ← Js.ofExcept (req.body.getProp "name")
      let originalFilename ← Js.ofExcept (req.body.getProp "originalFilename")
      let cleanedFilename ← Js.ofExcept (req.body.getProp "cleanedFilename")
      let keyColumn ← Js.ofExcept (req.body.getProp "keyColumn")
      let columnX ← Js.ofExcept (req.body.getProp "columnX")
      let columnY ← Js.ofExcept (req.body.getProp "columnY")
      let numClusters ← Js.ofExcept (req.body.getProp "numClusters")
      let encoding := (← Js.ofExcept (req.body.getProp "encoding")).withDefault (.str "utf-8")
      let delimiter := (← Js.ofExcept (req.body.getProp "delimiter")).withDefault (.str ",")
      if !name.truthy || !keyColumn.truthy || !columnX.truthy || !columnY.truthy then
        resStatusJson 400 (errorBody (.str "Data tidak lengkap"))
      else do
        let datasetToUse := cleanedFilename.or originalFilename
        let filePath ← Js.ofExcept
          (pathJoin [.str env.dirname, .str "../../uploads", datasetToUse])
        if !(← existsSync filePath) then
          resStatusJson 404 (errorBody (.str "Dataset file not found"))
        else do
          let result ← runPythonScript env "cluster"
            [.str filePath, keyColumn, columnX, columnY,
             .str (← Js.ofExcept (numClusters.callToString "numClusters")), encoding, delimiter]
          if !(← Js.ofExcept (result.getProp "success")).truthy then
            resStatusJson 400 (errorBody (← Js.ofExcept (result.getProp "error")))
          else do
            let visualization ← Visualization.create env
              { name := name
                datasetFile := originalFilename
                datasetClean := cleanedFilename.or .null
                keyColumn := keyColumn
                columnX := columnX
                columnY := columnY
                numClusters := numClusters
                encoding := encoding
                delimiter := delimiter
                silhouetteScore := ← Js.ofExcept (result.getProp "silhouette_score")
                columnsUsed := env.jsonStringify (← Js.ofExcept (result.getProp "columns_used")) }
            resJson (.obj [
              ("visualization", visualization.toJson env),
              ("clusteringResult", result)]))
    (fun error => resStatusJson 500 (errorBody (.str error.message)))

/-- Handler `exports.getClusteringResults`. -/
def getClusteringResults (env : Env) (req : Request) : Js Unit :=
  Js.tryCatch
    (do
      match ← Visualization.findByPk env req.paramsId with
      | none => resStatusJson 404 (errorBody (.str "Visualization not found"))
      | some visualization => do
        let filePath ← Js.ofExcept
          (pathJoin [.str env.dirname, .str "../../uploads", visualization.datasetClean])
        if !(← existsSync filePath) then
          resStatusJson 404 (errorBody (.str "Dataset file not found"))
        else do
          let result ← runPythonScript env "cluster"
            [.str filePath, visualization.keyColumn, visualization.columnX,
             visualization.columnY,
             .str (← Js.ofExcept (visualization.numClusters.callToString "visualization.numClusters")),
             visualization.encoding, visualization.delimiter]
          if !(← Js.ofExcept (result.getProp "success")).truthy then
            resStatusJson 400 (errorBody (← Js.ofExcept (result.getProp "error")))
          else
            resJson (.obj [
              ("visualization", .obj [
                ("id", .num (toString visualization.id)),
                ("name", visualization.name),
                ("datasetFile", visualization.datasetFile),
                ("numClusters", visualization.numClusters),
                ("silhouetteScore", visualization.silhouetteScore),
                ("columnX", visualization.columnX),
                ("columnY", visualization.columnY),
                ("keyColumn", visualization.keyColumn)]),
              ("clusteringResult", .obj [
                ("scatter_data", ← Js.ofExcept (result.getProp "data_points")),
                ("centroids", ← Js.ofExcept (result.getProp "centroids")),
                ("boxplot_data", ← Js.ofExcept (result.getProp "boxplot_data")),
                ("cluster_detail", ← Js.ofExcept (result.getProp "cluster_detail"))])]))
    (fun error => resStatusJson 500 (errorBody (.str error.message)))

/-- The loop `filesToDelete.forEach(file => ...)` of `deleteVisualization`. -/
def unlinkEach (uploads : String) : List JsVal → Js Unit
  | [] => pure ()
  | file :: rest => do
      let fullPath ← Js.ofExcept (pathJoin [.str uploads, file])
      if ← existsSync fullPath then
        unlinkSync fullPath
      unlinkEach uploads rest

/-- The list `[datasetFile, datasetClean].filter(Boolean)`. -/
def filesToDelete (v : Visualization) : List JsVal :=
  [v.datasetFile, v.datasetClean].filter JsVal.truthy

/-- Handler `exports.deleteVisualization`. -/
def deleteVisualization (env : Env) (req : Request) : Js Unit :=
  Js.tryCatch
    (do
      match ← Visualization.findByPk env req.paramsId with
      | none => resStatusJson 404 (errorBody (.str "Visualization not found"))
      | some visualization => do
        let uploads := uploadsDir env.dirname
        unlinkEach uploads (filesToDelete visualization)
        Visualization.destroy visualization
        resJson (.obj [
          ("message", .str "Visualization deleted successfully"),
          ("deletedFiles", .arr (filesToDelete visualization))]))
    (fun error => resStatusJson 500 (errorBody (.str error.message)))

/-- The engine was invoked during the run and its promise resolved with `result`. -/
def Run.engineReturned (run : Run) (result : JsVal) : Prop :=
  ∃ c ∈ run.calls, c.settled = .ok result

/-- The engine was invoked during the run and its promise rejected with `e`. -/
def Run.engineRejected (run : Run) (e : JsError) : Prop :=
  ∃ c ∈ run.calls, c.settled = .error e

/-- The property `req.body.k` as the destructuring of the handlers reads it; `undefined`
when the body has no such property. -/
def Request.field (req : Request) (k : String) : JsVal :=
  match req.body.getProp k with
  | .ok v => v
  | .error _ => .undefined

/-- A segment that `normalizeString` keeps as a directory or file name. -/
def properSegment (seg : List Char) : Bool :=
  decide (seg ≠ [] ∧ seg ≠ ['.'])

/-- A kept segment: a name that is neither empty, `.` nor `..` and holds no separator. -/
def keptSegment (seg : List Char) : Prop :=
  seg ≠ [] ∧ seg ≠ ['.'] ∧ seg ≠ ['.', '.'] ∧ '/' ∉ seg

/-! ## Concrete environments and worlds used in examples -/

/-- The number a text of decimal digits denotes, leading zeros allowed; `none` for the
empty text and for a text with any other character. -/
def readDecimal (cs : List Char) : Option Nat :=
  if cs = [] then none
  else cs.foldl (fun acc c =>
    match acc with
    | none => none
    | some n => if c.isDigit then some (10 * n + (c.toNat - '0'.toNat)) else none) (some 0)

/-- An environment whose engine process always behaves as `proc` and whose `JSON.parse`
reads every non-empty text as `parsed` (and fails on the empty text). Its database
stores every value as written and compares an id given as decimal digits by its number;
no key equals any other id text. -/
def exampleEnv (proc : ProcOutcome) (parsed : Option JsVal) : Env :=
  { dirname := "/srv/backend/src/controllers"
    jsonParse := fun text => if text = "" then none else parsed
    jsonStringify := fun v =>
      match v with
      | .undefined => .undefined
      | _ => .str "[json]"
    isoDate := fun _ => "2024-01-01T00:00:00.000Z"
    engine := fun _ _ => proc
    dbStore := fun _ v => .ok v
    readId := fun id => .ok (readDecimal id.data) }

/-- An engine process that exits with code 0 after printing some JSON text. -/
def exitsCleanly : ProcOutcome :=
  { code := some 0, stdout := ["[js", "on]"], stderr := [], written := [] }

/-- A world with an empty table and one uploaded dataset. -/
def exampleWorld : World :=
  { table := []
    nextId := 1
    now := 0
    dbError := none
    files := ["/srv/backend/uploads/data.csv"]
    dirs := ["/srv/backend/uploads"] }

/-- A request carrying only a JSON body. -/
def bodyRequest (body : JsVal) : Request :=
  { body := body, paramsId := "", file := none }

/-- An engine result reporting a failure. -/
def failureFields : List (String × JsVal) :=
  [("success", .bool false), ("error", .str "Column 'x' is not numeric")]

/-- An engine result of the cluster command reporting success. -/
def clusterFields : List (String × JsVal) :=
  [("success", .bool true), ("silhouette_score", .num "0.75"),
   ("columns_used", .arr [.str "x", .str "y"]), ("data_points", .arr []),
   ("centroids", .arr [])]

/-- An engine result of `clean_data` reporting success without a `rows` field. -/
def cleanFieldsWithoutRows : List (String × JsVal) :=
  [("success", .bool true), ("cleaned_filename", .str "cleaned_data.csv"),
   ("columns", .arr [.str "id", .str "x"]), ("rows_removed", .num "0")]

/-- The engine answers every command with a failure result. -/
def failingEnv : Env := exampleEnv exitsCleanly (some (.obj failureFields))

/-- The engine answers every command with the successful cluster result. -/
def clusterEnv : Env := exampleEnv exitsCleanly (some (.obj clusterFields))

/-- The engine answers every command with the `clean_data` result lacking `rows`. -/
def cleanEnv : Env := exampleEnv exitsCleanly (some (.obj cleanFieldsWithoutRows))

/-- A stored visualization whose cleaned dataset is `data.csv`. -/
def exampleRow : Visualization :=
  { id := 1
    name := .str "Sales"
    datasetFile := .str "raw.csv"
    datasetClean := .str "data.csv"
    numClusters := .num "3"
    keyColumn := .str "id"
    columnX := .str "x"
    columnY := .str "y"
    encoding := .str "utf-8"
    delimiter := .str ","
    silhouetteScore := .num "0.75"
    columnsUsed := .str "[json]"
    createdAt := 0
    updatedAt := 0 }

/-- A world holding `exampleRow` and both of its files. -/
def storedWorld : World :=
  { table := [exampleRow]
    nextId := 2
    now := 5
    dbError := none
    files := ["/srv/backend/uploads/raw.csv", "/srv/backend/uploads/data.csv",
              "/srv/backend/uploads/other.csv"]
    dirs := ["/srv/backend/uploads"] }

/-- One request that every handler can serve: an uploaded file, a complete JSON body
without a cleaned file name, and the id 1 in the URL. -/
def fullRequest : Request :=
  { body := .obj [("name", .str "Sales"), ("filename", .str "data.csv"),
      ("originalFilename", .str "data.csv"), ("keyColumn", .str "id"),
      ("columnX", .str "x"), ("columnY", .str "y"), ("numClusters", .num "3"),
      ("cleaningOptions", .obj [])]
    paramsId := "1"
    file := some { path := "/srv/backend/uploads/data.csv", filename := "data.csv" } }

/-- A clustering request that names only a cleaned file. -/
def requestWithoutOriginal : Request :=
  bodyRequest (.obj [("name", .str "Sales"), ("cleanedFilename", .str "data.csv"),
    ("keyColumn", .str "id"), ("columnX", .str "x"), ("columnY", .str "y"),
    ("numClusters", .num "3")])

/-- The record that `fullRequest` creates in `storedWorld` when the engine answers with
`clusterFields` : the instance, and also the row that the database of `exampleEnv`
stores. -/
def createdRow : Visualization :=
  { id := 2
    name := .str "Sales"
    datasetFile := .str "data.csv"
    datasetClean := .null
    numClusters := .num "3"
    keyColumn := .str "id"
    columnX := .str "x"
    columnY := .str "y"
    encoding := .str "utf-8"
    delimiter := .str ","
    silhouetteScore := .num "0.75"
    columnsUsed := .str "[json]"
    createdAt := 5
    updatedAt := 5 }

/-- A clustering request whose `name` is an array. -/
def requestWithArrayName : Request :=
  bodyRequest (.obj [("name", .arr [.str "Sales"]), ("originalFilename", .str "data.csv"),
    ("keyColumn", .str "id"), ("columnX", .str "x"), ("columnY", .str "y"),
    ("numClusters", .num "3")])

/-- A clustering request on the cleaned file `data.csv` whose `originalFilename` points
out of the uploads directory. -/
def traversalRequest : Request :=
  bodyRequest (.obj [("name", .str "Sales"), ("originalFilename", .str "../src/server.js"),
    ("cleanedFilename", .str "data.csv"), ("keyColumn", .str "id"), ("columnX", .str "x"),
    ("columnY", .str "y"), ("numClusters", .num "3")])

/-- The request `fullRequest` with the id written `01`. -/
def paddedIdRequest : Request := { fullRequest with paramsId := "01" }

/-- An engine process that crashes with exit code 2 and a traceback on stderr. -/
def crashes : ProcOutcome :=
  { code := some 2, stdout := [], stderr := ["Trace", "back"], written := [] }

/-- The engine process crashes on every command. -/
def crashingEnv : Env := exampleEnv crashes none

/-- The request `fullRequest` for an id that no record has. -/
def unknownIdRequest : Request := { fullRequest with paramsId := "7" }

/-- A world in which the uploaded file is no longer on disk. -/
def worldWithoutUpload : World :=
  { table := []
    nextId := 1
    now := 0
    dbError := none
    files := []
    dirs := ["/srv/backend/uploads"] }

/-- A world that also holds a source file of the server next to the uploads. -/
def worldWithSource : World :=
  { table := []
    nextId := 1
    now := 0
    dbError := none
    files := ["/srv/backend/uploads/data.csv", "/srv/backend/src/server.js"]
    dirs := ["/srv/backend/uploads", "/srv/backend/src"] }

/-! ## Stepping through handler code -/

section steps
variable {α β : Type}

theorem Js.bind_run (m : Js α) (f : α → Js β) (s : St) :
    (m >>= f) s = match m s with
      | .ok a s' => f a s'
      | .threw e s' => .threw e s' := rfl

@[simp] theorem Js.pure_run (a : α) (s : St) : (pure a : Js α) s = .ok a s := rfl

@[simp] theorem Js.ofExcept_ok_bind (a : α) (f : α → Js β) (s : St) :
    (Js.ofExcept (.ok a) >>= f) s = f a s := rfl

@[simp] theorem Js.ofExcept_error_bind (e : JsError) (f : α → Js β) (s : St) :
    ((Js.ofExcept (.error e) : Js α) >>= f) s = .threw e s := rfl

@[simp] theorem existsSync_bind (p : String) (f : Bool → Js β) (s : St) :
    (existsSync p >>= f) s = f (decide (p ∈ s.world.files) || decide (p ∈ s.world.dirs)) s := rfl

@[simp] theorem resStatusJson_run (code : Nat) (body : JsVal) (s : St) :
    resStatusJson code body s = .ok () { s with sent := s.sent ++ [⟨code, body⟩] } := rfl

@[simp] theorem resJson_run (body : JsVal) (s : St) :
    resJson body s = .ok () { s with sent := s.sent ++ [⟨200, body⟩] } := rfl

/-- The state after the engine process has run. -/
theorem runPythonScript_bind (env : Env) (command : String) (args : List JsVal)
    (f : JsVal → Js β) (s : St) :
    (runPythonScript env command args >>= f) s =
      match runPythonScript.onClose env (env.engine command args).code
          (collect (env.engine command args).stdout) (collect (env.engine command args).stderr) with
      | .ok result => f result
          { world := { s.world with files := s.world.files ++ (env.engine command args).written }
            sent := s.sent
            calls := s.calls ++ [⟨command, args, .ok result⟩] }
      | .error e => .threw e
          { world := { s.world with files := s.world.files ++ (env.engine command args).written }
            sent := s.sent
            calls := s.calls ++ [⟨command, args, .error e⟩] } := by
  simp only [Js.bind_run, runPythonScript]
  cases runPythonScript.onClose env (env.engine command args).code
      (collect (env.engine command args).stdout) (collect (env.engine command args).stderr) <;> rfl

@[simp] theorem getProp_obj (fields : List (String × JsVal)) (k : String) :
    (JsVal.obj fields).getProp k = .ok (JsVal.lookup k fields) := rfl

@[simp] theorem truthy_bool (b : Bool) : (JsVal.bool b).truthy = b := rfl
@[simp] theorem truthy_undefined : JsVal.undefined.truthy = false := rfl
@[simp] theorem truthy_null : JsVal.null.truthy = false := rfl

@[simp] theorem getProp_undefined (k : String) : JsVal.undefined.getProp k =
    .error ⟨"Cannot read properties of undefined (reading '" ++ k ++ "')"⟩ := rfl
@[simp] theorem getProp_null (k : String) : JsVal.null.getProp k =
    .error ⟨"Cannot read properties of null (reading '" ++ k ++ "')"⟩ := rfl
@[simp] theorem getProp_bool (b : Bool) (k : String) :
    (JsVal.bool b).getProp k = .ok .undefined := rfl
@[simp] theorem getProp_num (r : String) (k : String) :
    (JsVal.num r).getProp k = .ok .undefined := rfl
@[simp] theorem getProp_str (r : String) (k : String) :
    (JsVal.str r).getProp k = .ok .undefined := rfl
@[simp] theorem getProp_arr (xs : List JsVal) (k : String) :
    (JsVal.arr xs).getProp k = .ok .undefined := rfl

theorem ite_run (c : Prop) [Decidable c] (a b : Js α) (s : St) :
    (if c then a else b) s = if c then a s else b s := by
  split <;> rfl

theorem create_bind (env : Env) (a : VisualizationAttrs) (f : Visualization → Js β) (s : St) :
    (Visualization.create env a >>= f) s =
      if schemaViolations (buildInstance s.world a) ≠ [] then
        .threw ⟨",\n".intercalate (schemaViolations (buildInstance s.world a))⟩ s
      else
        match s.world.dbError with
        | some m => .threw ⟨m⟩ s
        | none =>
            match storeRow env (buildInstance s.world a) with
            | .error e => .threw e s
            | .ok row =>
                f (buildInstance s.world a) { s with world :=
                  { s.world with table := s.world.table ++ [row],
                                 nextId := s.world.nextId + 1 } } := by
  simp only [Js.bind_run, Visualization.create]
  split_ifs
  · rfl
  · cases s.world.dbError with
    | some m => rfl
    | none => cases storeRow env (buildInstance s.world a) <;> rfl

theorem findByPk_bind (env : Env) (id : String) (f : Option Visualization → Js β) (s : St) :
    (Visualization.findByPk env id >>= f) s =
      match s.world.dbError with
      | some m => .threw ⟨m⟩ s
      | none =>
          match Visualization.lookup env s.world.table id with
          | .error e => .threw e s
          | .ok found => f found s := by
  simp only [Js.bind_run, Visualization.findByPk]
  cases s.world.dbError with
  | some m => rfl
  | none => cases Visualization.lookup env s.world.table id <;> rfl

theorem destroy_bind (v : Visualization) (f : Unit → Js β) (s : St) :
    (Visualization.destroy v >>= f) s =
      match s.world.dbError with
      | some m => .threw ⟨m⟩ s
      | none => f () { s with world :=
          { s.world with table := s.world.table.filter (fun r => r.id ≠ v.id) } } := by
  simp only [Js.bind_run, Visualization.destroy]
  cases s.world.dbError <;> rfl

theorem unlinkSync_bind (p : String) (f : Unit → Js β) (s : St) :
    (unlinkSync p >>= f) s =
      if p ∈ s.world.files then
        f () { s with world := { s.world with files := s.world.files.filter (fun q => q ≠ p) } }
      else .threw ⟨"ENOENT: no such file or directory, unlink '" ++ p ++ "'"⟩ s := by
  simp only [Js.bind_run, unlinkSync]
  split_ifs <;> rfl

theorem unlinkSync_run (p : String) (s : St) :
    unlinkSync p s =
      if p ∈ s.world.files then
        .ok () { s with world := { s.world with files := s.world.files.filter (fun q => q ≠ p) } }
      else .threw ⟨"ENOENT: no such file or directory, unlink '" ++ p ++ "'"⟩ s := rfl

end steps

theorem getProp_eq_field (req : Request) (h : isNullish req.body = false) (k : String) :
    req.body.getProp k = .ok (req.field k) := by
  unfold Request.field
  cases hb : req.body <;> simp_all [isNullish]

/-- How `Visualization.create` followed by more code ends: it throws, for one of three
reasons, or the rest runs on the instance with the stored row appended. -/
theorem create_bind_cases {β : Type} (env : Env) (a : VisualizationAttrs)
    (f : Visualization → Js β) (s : St) (out : Outcome β)
    (h : (Visualization.create env a >>= f) s = out) :
    (∃ e, out = .threw e s ∧
      (schemaViolations (buildInstance s.world a) ≠ [] ∨ s.world.dbError ≠ none ∨
        storeRow env (buildInstance s.world a) = .error e)) ∨
    (∃ row, schemaViolations (buildInstance s.world a) = [] ∧ s.world.dbError = none ∧
      storeRow env (buildInstance s.world a) = .ok row ∧
      out = f (buildInstance s.world a) { s with world :=
        { s.world with table := s.world.table ++ [row], nextId := s.world.nextId + 1 } }) := by
  subst h
  rw [create_bind]
  split_ifs with hv
  · exact Or.inl ⟨_, rfl, Or.inl hv⟩
  · cases hd : s.world.dbError with
    | some m => exact Or.inl ⟨_, rfl, Or.inr (Or.inl (by simp))⟩
    | none =>
      cases hst : storeRow env (buildInstance s.world a) with
      | error e => exact Or.inl ⟨_, rfl, Or.inr (Or.inr rfl)⟩
      | ok row => exact Or.inr ⟨row, by simpa using hv, rfl, rfl, rfl⟩

/-! ## Engine failures -/

theorem processClustering_engine_failure (env : Env) (req : Request) (w : World)
    (fields : List (String × JsVal)) (hfalse : JsVal.lookup "success" fields = .bool false)
    (hret : (runHandler (processClustering env req) w).engineReturned (.obj fields)) :
    (runHandler (processClustering env req) w).sent
        = [⟨400, errorBody (JsVal.lookup "error" fields)⟩] ∧
      (runHandler (processClustering env req) w).world.table = w.table := by
  suffices h : ∀ run, runHandler (processClustering env req) w = run →
      run.engineReturned (.obj fields) →
      run.sent = [⟨400, errorBody (JsVal.lookup "error" fields)⟩] ∧ run.world.table = w.table from
    h _ rfl hret
  intro run
  simp only [processClustering, runHandler, Js.tryCatch, Run.engineReturned]
  by_cases hnull : isNullish req.body = true
  · cases hb : req.body <;> simp [hb, isNullish] at hnull <;> simp <;> rintro rfl <;> simp
  · simp only [getProp_eq_field req (by simpa using hnull), Js.ofExcept_ok_bind, ite_run]
    split_ifs with hc
    · simp; rintro rfl; simp
    · cases hp : pathJoin [JsVal.str env.dirname, JsVal.str "../../uploads",
          (req.field "cleanedFilename").or (req.field "originalFilename")] with
      | error e => simp; rintro rfl; simp
      | ok filePath =>
        simp [ite_run]
        split_ifs with hex
        · rintro rfl; simp
        · cases hn : (req.field "numClusters").callToString "numClusters" with
          | error e => simp; rintro rfl; simp
          | ok rendered =>
            simp only [Js.ofExcept_ok_bind, runPythonScript_bind]
            generalize env.engine _ _ = proc
            cases hset : runPythonScript.onClose env proc.code (collect proc.stdout)
                (collect proc.stderr) with
            | error e => simp; rintro rfl; simp
            | ok result =>
              cases result with
              | obj fs2 =>
                simp [ite_run]
                split_ifs with hs
                · rintro rfl; simp; rintro rfl; simp_all
                · generalize hcr : (Visualization.create env _ >>= _) _ = out
                  rcases create_bind_cases _ _ _ _ _ hcr with ⟨e, rfl, -⟩ | ⟨row, hv, hd, hst, rfl⟩
                  · simp; rintro rfl; simp; rintro rfl; simp_all
                  · simp; rintro rfl; simp; rintro rfl; simp_all
              | _ => simp [ite_run]; rintro rfl; simp

theorem calculateElbow_engine_failure (env : Env) (req : Request) (w : World)
    (fields : List (String × JsVal)) (hfalse : JsVal.lookup "success" fields = .bool false)
    (hret : (runHandler (calculateElbow env req) w).engineReturned (.obj fields)) :
    (runHandler (calculateElbow env req) w).sent
        = [⟨400, errorBody (JsVal.lookup "error" fields)⟩] ∧
      (runHandler (calculateElbow env req) w).world.table = w.table := by
  suffices h : ∀ run, runHandler (calculateElbow env req) w = run →
      run.engineReturned (.obj fields) →
      run.sent = [⟨400, errorBody (JsVal.lookup "error" fields)⟩] ∧ run.world.table = w.table from
    h _ rfl hret
  intro run
  simp only [calculateElbow, runHandler, Js.tryCatch, Run.engineReturned]
  by_cases hnull : isNullish req.body = true
  · cases hb : req.body <;> simp [hb, isNullish] at hnull <;> simp <;> rintro rfl <;> simp
  · simp only [getProp_eq_field req (by simpa using hnull), Js.ofExcept_ok_bind]
    cases hp : pathJoin [JsVal.str env.dirname, JsVal.str "../../uploads",
        req.field "filename"] with
    | error e => simp; rintro rfl; simp
    | ok filePath =>
      simp [ite_run]
      split_ifs with hex
      · rintro rfl; simp
      · simp only [runPythonScript_bind]
        generalize env.engine _ _ = proc
        cases hset : runPythonScript.onClose env proc.code (collect proc.stdout)
            (collect proc.stderr) with
        | error e => simp; rintro rfl; simp
        | ok result =>
          cases result <;> simp [ite_run]
          any_goals (rintro rfl; simp)
          split_ifs <;> rintro rfl <;> simp <;> rintro rfl <;> simp_all

theorem cleanData_engine_failure (env : Env) (req : Request) (w : World)
    (fields : List (String × JsVal)) (hfalse : JsVal.lookup "success" fields = .bool false)
    (hret : (runHandler (cleanData env req) w).engineReturned (.obj fields)) :
    (runHandler (cleanData env req) w).sent
        = [⟨400, errorBody (JsVal.lookup "error" fields)⟩] ∧
      (runHandler (cleanData env req) w).world.table = w.table := by
  suffices h : ∀ run, runHandler (cleanData env req) w = run →
      run.engineReturned (.obj fields) →
      run.sent = [⟨400, errorBody (JsVal.lookup "error" fields)⟩] ∧ run.world.table = w.table from
    h _ rfl hret
  intro run
  simp only [cleanData, runHandler, Js.tryCatch, Run.engineReturned]
  by_cases hnull : isNullish req.body = true
  · cases hb : req.body <;> simp [hb, isNullish] at hnull <;> simp <;> rintro rfl <;> simp
  · simp only [getProp_eq_field req (by simpa using hnull), Js.ofExcept_ok_bind]
    cases hp : pathJoin [JsVal.str env.dirname, JsVal.str "../../uploads",
        req.field "filename"] with
    | error e => simp; rintro rfl; simp
    | ok filePath =>
      simp [ite_run]
      split_ifs with hex
      · rintro rfl; simp
      · simp only [runPythonScript_bind]
        generalize env.engine _ _ = proc
        cases hset : runPythonScript.onClose env proc.code (collect proc.stdout)
            (collect proc.stderr) with
        | error e => simp; rintro rfl; simp
        | ok result =>
          cases result <;> simp [ite_run]
          any_goals (rintro rfl; simp)
          split_ifs <;> rintro rfl <;> simp <;> rintro rfl <;> simp_all

theorem getClusteringResults_engine_failure (env : Env) (req : Request) (w : World)
    (fields : List (String × JsVal)) (hfalse : JsVal.lookup "success" fields = .bool false)
    (hret : (runHandler (getClusteringResults env req) w).engineReturned (.obj fields)) :
    (runHandler (getClusteringResults env req) w).sent
        = [⟨400, errorBody (JsVal.lookup "error" fields)⟩] ∧
      (runHandler (getClusteringResults env req) w).world.table = w.table := by
  suffices h : ∀ run, runHandler (getClusteringResults env req) w = run →
      run.engineReturned (.obj fields) →
      run.sent = [⟨400, errorBody (JsVal.lookup "error" fields)⟩] ∧ run.world.table = w.table from
    h _ rfl hret
  intro run
  simp only [getClusteringResults, runHandler, Js.tryCatch, Run.engineReturned, findByPk_bind]
  cases hdb : w.dbError with
  | some m => simp; rintro rfl; simp
  | none =>
    cases hfind : Visualization.lookup env w.table req.paramsId with
    | error e => simp; rintro rfl; simp
    | ok found =>
      cases found with
      | none => simp; rintro rfl; simp
      | some v =>
        simp only []
        cases hp : pathJoin [JsVal.str env.dirname, JsVal.str "../../uploads", v.datasetClean] with
        | error e => simp; rintro rfl; simp
        | ok filePath =>
          simp [ite_run]
          split_ifs with hex
          · rintro rfl; simp
          · cases hn : v.numClusters.callToString "visualization.numClusters" with
            | error e => simp; rintro rfl; simp
            | ok rendered =>
              simp only [Js.ofExcept_ok_bind, runPythonScript_bind]
              generalize env.engine _ _ = proc
              cases hset : runPythonScript.onClose env proc.code (collect proc.stdout)
                  (collect proc.stderr) with
              | error e => simp; rintro rfl; simp
              | ok result =>
                cases result <;> simp [ite_run]
                any_goals (rintro rfl; simp)
                split_ifs <;> rintro rfl <;> simp <;> rintro rfl <;> simp_all

theorem uploadDataset_engine_failure (env : Env) (req : Request) (w : World)
    (fields : List (String × JsVal)) (hfalse : JsVal.lookup "success" fields = .bool false)
    (hdisk : ∀ file, req.file = some file → file.path ∈ w.files)
    (hret : (runHandler (uploadDataset env req) w).engineReturned (.obj fields)) :
    (runHandler (uploadDataset env req) w).sent
        = [⟨400, errorBody (JsVal.lookup "error" fields)⟩] ∧
      (runHandler (uploadDataset env req) w).world.table = w.table := by
  suffices h : ∀ run, runHandler (uploadDataset env req) w = run →
      run.engineReturned (.obj fields) →
      run.sent = [⟨400, errorBody (JsVal.lookup "error" fields)⟩] ∧ run.world.table = w.table from
    h _ rfl hret
  intro run
  simp only [uploadDataset, runHandler, Js.tryCatch, Run.engineReturned]
  cases hf : req.file with
  | none => simp; rintro rfl; simp
  | some file =>
    have hfile : file.path ∈ w.files := hdisk file hf
    simp only []
    by_cases hnull : isNullish req.body = true
    · cases hb : req.body <;> simp [hb, isNullish] at hnull <;>
        simp [unlinkSync_bind, hfile] <;> rintro rfl <;> simp
    · simp only [getProp_eq_field req (by simpa using hnull), Js.ofExcept_ok_bind,
        runPythonScript_bind]
      generalize env.engine _ _ = proc
      cases hset : runPythonScript.onClose env proc.code (collect proc.stdout)
          (collect proc.stderr) with
      | error e => simp [unlinkSync_bind, hfile]; rintro rfl; simp
      | ok result =>
        cases result <;> simp [ite_run, unlinkSync_bind, hfile]
        any_goals (rintro rfl; simp)
        split_ifs <;> rintro rfl <;> simp <;> rintro rfl <;> simp_all

/-! ## Arguments of the cluster command -/

theorem withDefault_undefined (d : JsVal) : JsVal.undefined.withDefault d = d := rfl

theorem withDefault_defined (v d : JsVal) (h : v ≠ .undefined) : v.withDefault d = v := by
  cases v <;> simp_all [JsVal.withDefault]

theorem processClustering_cluster_arguments (env : Env) (req : Request) (w : World) :
    ∀ c ∈ (runHandler (processClustering env req) w).calls,
      c.command = "cluster" ∧ c.args.length = 7 ∧
      ∃ filePath rendered,
        pathJoin [.str env.dirname, .str "../../uploads",
          (req.field "cleanedFilename").or (req.field "originalFilename")] = .ok filePath ∧
        (req.field "numClusters").callToString "numClusters" = .ok rendered ∧
        c.args = [.str filePath, req.field "keyColumn", req.field "columnX",
          req.field "columnY", .str rendered,
          (req.field "encoding").withDefault (.str "utf-8"),
          (req.field "delimiter").withDefault (.str ",")] := by
  suffices h : ∀ run, runHandler (processClustering env req) w = run →
      ∀ c ∈ run.calls, c.command = "cluster" ∧ c.args.length = 7 ∧
      ∃ filePath rendered,
        pathJoin [.str env.dirname, .str "../../uploads",
          (req.field "cleanedFilename").or (req.field "originalFilename")] = .ok filePath ∧
        (req.field "numClusters").callToString "numClusters" = .ok rendered ∧
        c.args = [.str filePath, req.field "keyColumn", req.field "columnX",
          req.field "columnY", .str rendered,
          (req.field "encoding").withDefault (.str "utf-8"),
          (req.field "delimiter").withDefault (.str ",")] from
    h _ rfl
  intro run
  simp only [processClustering, runHandler, Js.tryCatch]
  by_cases hnull : isNullish req.body = true
  · cases hb : req.body <;> simp [hb, isNullish] at hnull <;> simp <;> rintro rfl <;> simp
  · simp only [getProp_eq_field req (by simpa using hnull), Js.ofExcept_ok_bind, ite_run]
    split_ifs with hc
    · simp; rintro rfl; simp
    · cases hp : pathJoin [JsVal.str env.dirname, JsVal.str "../../uploads",
          (req.field "cleanedFilename").or (req.field "originalFilename")] with
      | error e => simp; rintro rfl; simp
      | ok filePath =>
        simp [ite_run]
        split_ifs with hex
        · rintro rfl; simp
        · cases hn : (req.field "numClusters").callToString "numClusters" with
          | error e => simp; rintro rfl; simp
          | ok rendered =>
            simp only [Js.ofExcept_ok_bind, runPythonScript_bind]
            generalize env.engine _ _ = proc
            cases hset : runPythonScript.onClose env proc.code (collect proc.stdout)
                (collect proc.stderr) with
            | error e => simp; rintro rfl; simp
            | ok result =>
              cases result with
              | obj fs2 =>
                simp [ite_run]
                split_ifs with hs
                · rintro rfl; simp
                · generalize hcr : (Visualization.create env _ >>= _) _ = out
                  rcases create_bind_cases _ _ _ _ _ hcr with ⟨e, rfl, -⟩ | ⟨row, hv, hd, hst, rfl⟩
                  · simp; rintro rfl; simp
                  · simp; rintro rfl; simp
              | _ => simp [ite_run]; rintro rfl; simp

theorem getClusteringResults_cluster_arguments (env : Env) (req : Request) (w : World) :
    ∀ c ∈ (runHandler (getClusteringResults env req) w).calls,
      c.command = "cluster" ∧ c.args.length = 7 ∧
      ∃ v filePath rendered,
        Visualization.lookup env w.table req.paramsId = .ok (some v) ∧
        pathJoin [.str env.dirname, .str "../../uploads", v.datasetClean] = .ok filePath ∧
        v.numClusters.callToString "visualization.numClusters" = .ok rendered ∧
        c.args = [.str filePath, v.keyColumn, v.columnX, v.columnY, .str rendered,
          v.encoding, v.delimiter] := by
  suffices h : ∀ run, runHandler (getClusteringResults env req) w = run →
      ∀ c ∈ run.calls, c.command = "cluster" ∧ c.args.length = 7 ∧
      ∃ v filePath rendered,
        Visualization.lookup env w.table req.paramsId = .ok (some v) ∧
        pathJoin [.str env.dirname, .str "../../uploads", v.datasetClean] = .ok filePath ∧
        v.numClusters.callToString "visualization.numClusters" = .ok rendered ∧
        c.args = [.str filePath, v.keyColumn, v.columnX, v.columnY, .str rendered,
          v.encoding, v.delimiter] from
    h _ rfl
  intro run
  simp only [getClusteringResults, runHandler, Js.tryCatch, findByPk_bind]
  cases hdb : w.dbError with
  | some m => simp; rintro rfl; simp
  | none =>
    cases hfind : Visualization.lookup env w.table req.paramsId with
    | error e => simp; rintro rfl; simp
    | ok found =>
      cases found with
      | none => simp; rintro rfl; simp
      | some v =>
        simp only []
        cases hp : pathJoin [JsVal.str env.dirname, JsVal.str "../../uploads", v.datasetClean] with
        | error e => simp; rintro rfl; simp
        | ok filePath =>
          simp [ite_run]
          split_ifs with hex
          · rintro rfl; simp
          · cases hn : v.numClusters.callToString "visualization.numClusters" with
            | error e => simp; rintro rfl; simp
            | ok rendered =>
              simp only [Js.ofExcept_ok_bind, runPythonScript_bind]
              generalize env.engine _ _ = proc
              cases hset : runPythonScript.onClose env proc.code (collect proc.stdout)
                  (collect proc.stderr) with
              | error e => simp; rintro rfl; simp [hp, hn]
              | ok result =>
                cases result with
                | obj fs2 =>
                  simp [ite_run]
                  split_ifs <;> rintro rfl <;> simp [hp, hn]
                | _ => simp [ite_run]; rintro rfl; simp [hp, hn]

/-! ## The uploaded file -/

/-- The success body of `uploadDataset` for an engine result with the given fields. -/
theorem uploadDataset_with_file (env : Env) (req : Request) (w : World) (file : UploadedFile)
    (hf : req.file = some file) (hdisk : file.path ∈ w.files) :
    (∃ resp, (runHandler (uploadDataset env req) w).sent = [resp] ∧
      (resp.status = 200 ↔ file.path ∈ (runHandler (uploadDataset env req) w).world.files)) ∧
    (∀ fields, (runHandler (uploadDataset env req) w).engineReturned (.obj fields) →
      JsVal.lookup "success" fields = .bool true →
      (runHandler (uploadDataset env req) w).sent = [⟨200, .obj [
        ("filename", .str file.filename),
        ("columns", JsVal.lookup "columns" fields),
        ("numeric_columns", JsVal.lookup "numeric_columns" fields),
        ("null_info", JsVal.lookup "null_info" fields),
        ("has_nulls", JsVal.lookup "has_nulls" fields),
        ("has_duplicates", JsVal.lookup "has_duplicates" fields),
        ("num_rows", JsVal.lookup "num_rows" fields),
        ("num_duplicates", JsVal.lookup "num_duplicates" fields)]⟩] ∧
      file.path ∈ (runHandler (uploadDataset env req) w).world.files) ∧
    (∀ fields, (runHandler (uploadDataset env req) w).engineReturned (.obj fields) →
      JsVal.lookup "success" fields = .bool false →
      (runHandler (uploadDataset env req) w).sent
        = [⟨400, errorBody (JsVal.lookup "error" fields)⟩] ∧
      file.path ∉ (runHandler (uploadDataset env req) w).world.files) ∧
    (∀ e, (runHandler (uploadDataset env req) w).engineRejected e →
      (runHandler (uploadDataset env req) w).sent = [⟨500, errorBody (.str e.message)⟩] ∧
      file.path ∉ (runHandler (uploadDataset env req) w).world.files) := by
  suffices h : ∀ run, runHandler (uploadDataset env req) w = run →
      (∃ resp, run.sent = [resp] ∧ (resp.status = 200 ↔ file.path ∈ run.world.files)) ∧
      (∀ fields, run.engineReturned (.obj fields) →
        JsVal.lookup "success" fields = .bool true →
        run.sent = [⟨200, .obj [
          ("filename", .str file.filename),
          ("columns", JsVal.lookup "columns" fields),
          ("numeric_columns", JsVal.lookup "numeric_columns" fields),
          ("null_info", JsVal.lookup "null_info" fields),
          ("has_nulls", JsVal.lookup "has_nulls" fields),
          ("has_duplicates", JsVal.lookup "has_duplicates" fields),
          ("num_rows", JsVal.lookup "num_rows" fields),
          ("num_duplicates", JsVal.lookup "num_duplicates" fields)]⟩] ∧
        file.path ∈ run.world.files) ∧
      (∀ fields, run.engineReturned (.obj fields) →
        JsVal.lookup "success" fields = .bool false →
        run.sent = [⟨400, errorBody (JsVal.lookup "error" fields)⟩] ∧
        file.path ∉ run.world.files) ∧
      (∀ e, run.engineRejected e →
        run.sent = [⟨500, errorBody (.str e.message)⟩] ∧ file.path ∉ run.world.files) from
    h _ rfl
  intro run
  simp only [uploadDataset, runHandler, Js.tryCatch, Run.engineReturned, Run.engineRejected, hf]
  by_cases hnull : isNullish req.body = true
  · cases hb : req.body <;> simp [hb, isNullish] at hnull <;>
      simp [unlinkSync_bind, hdisk] <;> rintro rfl <;> simp
  · simp only [getProp_eq_field req (by simpa using hnull), Js.ofExcept_ok_bind,
      runPythonScript_bind]
    generalize env.engine _ _ = proc
    cases hset : runPythonScript.onClose env proc.code (collect proc.stdout)
        (collect proc.stderr) with
    | error e => simp [unlinkSync_bind, hdisk]; rintro rfl; simp
    | ok result =>
      cases result with
      | obj fs2 =>
        simp [ite_run, unlinkSync_bind, hdisk]
        split_ifs with hs <;> rintro rfl <;> simp [hdisk]
        · intro hs'; simp [hs'] at hs
        · intro hs'; simp [hs'] at hs
      | _ => simp [ite_run, unlinkSync_bind, hdisk]; rintro rfl; simp

/-! ## Record creation -/

theorem not_nullish_of_truthy (v : JsVal) (h : v.truthy = true) : isNullish v = false := by
  cases v <;> simp_all [isNullish]

theorem not_nullish_of_callToString (v : JsVal) (expr r : String)
    (h : v.callToString expr = .ok r) :
    isNullish v = false := by
  cases v <;> simp_all [isNullish, JsVal.callToString]

theorem defaulted_withDefault (v d d' : JsVal) (hd : d ≠ .undefined) :
    defaulted (v.withDefault d) d' = v.withDefault d := by
  cases v <;> cases d <;> simp_all [defaulted, JsVal.withDefault]

theorem processClustering_success (env : Env) (req : Request) (w : World)
    (fields : List (String × JsVal)) (inst row : Visualization)
    (hname : (req.field "name").truthy = true)
    (hkey : (req.field "keyColumn").truthy = true)
    (hx : (req.field "columnX").truthy = true)
    (hy : (req.field "columnY").truthy = true)
    (horig : isNullish (req.field "originalFilename") = false)
    (htext : ∀ v ∈ [req.field "name", req.field "originalFilename",
        (req.field "cleanedFilename").or .null, req.field "keyColumn", req.field "columnX",
        req.field "columnY", (req.field "encoding").withDefault (.str "utf-8"),
        (req.field "delimiter").withDefault (.str ","),
        env.jsonStringify (JsVal.lookup "columns_used" fields)], isArrayOrObject v = false)
    (hinst : inst =
      { id := w.nextId
        name := req.field "name"
        datasetFile := req.field "originalFilename"
        datasetClean := (req.field "cleanedFilename").or .null
        numClusters := req.field "numClusters"
        keyColumn := req.field "keyColumn"
        columnX := req.field "columnX"
        columnY := req.field "columnY"
        encoding := (req.field "encoding").withDefault (.str "utf-8")
        delimiter := (req.field "delimiter").withDefault (.str ",")
        silhouetteScore := JsVal.lookup "silhouette_score" fields
        columnsUsed := env.jsonStringify (JsVal.lookup "columns_used" fields)
        createdAt := w.now
        updatedAt := w.now })
    (hdb : w.dbError = none)
    (hstore : storeRow env inst = .ok row)
    (hret : (runHandler (processClustering env req) w).engineReturned (.obj fields))
    (hsuc : JsVal.lookup "success" fields = .bool true) :
    (runHandler (processClustering env req) w).world.table = w.table ++ [row] ∧
      (runHandler (processClustering env req) w).world.nextId = w.nextId + 1 ∧
      (runHandler (processClustering env req) w).sent =
        [⟨200, .obj [("visualization", inst.toJson env), ("clusteringResult", .obj fields)]⟩] := by
  suffices h : ∀ run, runHandler (processClustering env req) w = run →
      run.engineReturned (.obj fields) →
      run.world.table = w.table ++ [row] ∧ run.world.nextId = w.nextId + 1 ∧
        run.sent =
          [⟨200, .obj [("visualization", inst.toJson env), ("clusteringResult", .obj fields)]⟩] from
    h _ rfl hret
  subst hinst
  intro run
  simp only [processClustering, runHandler, Js.tryCatch, Run.engineReturned]
  by_cases hnull : isNullish req.body = true
  · cases hb : req.body <;> simp [hb, isNullish] at hnull <;> simp <;> rintro rfl <;> simp
  · simp only [getProp_eq_field req (by simpa using hnull), Js.ofExcept_ok_bind, ite_run]
    simp only [hname, hkey, hx, hy]
    cases hp : pathJoin [JsVal.str env.dirname, JsVal.str "../../uploads",
        (req.field "cleanedFilename").or (req.field "originalFilename")] with
    | error e => simp; rintro rfl; simp
    | ok filePath =>
      simp [ite_run]
      split_ifs with hex
      · rintro rfl; simp
      · cases hn : (req.field "numClusters").callToString "numClusters" with
        | error e => simp; rintro rfl; simp
        | ok rendered =>
          simp only [Js.ofExcept_ok_bind, runPythonScript_bind]
          generalize env.engine _ _ = proc
          cases hset : runPythonScript.onClose env proc.code (collect proc.stdout)
              (collect proc.stderr) with
          | error e => simp; rintro rfl; simp
          | ok result =>
            cases result with
            | obj fs2 =>
              simp [ite_run]
              split_ifs with hs
              · rintro rfl; simp; rintro rfl; simp [hsuc] at hs
              · simp only [List.mem_cons, List.mem_singleton, forall_eq_or_imp, forall_eq,
                  List.not_mem_nil, false_implies, implies_true, and_true] at htext
                obtain ⟨t1, t2, t3, t4, t5, t6, t7, t8, t9⟩ := htext
                have hviol : ∀ w' : World, schemaViolations (buildInstance w'
                    { name := req.field "name"
                      datasetFile := req.field "originalFilename"
                      datasetClean := (req.field "cleanedFilename").or .null
                      keyColumn := req.field "keyColumn"
                      columnX := req.field "columnX"
                      columnY := req.field "columnY"
                      numClusters := req.field "numClusters"
                      encoding := (req.field "encoding").withDefault (.str "utf-8")
                      delimiter := (req.field "delimiter").withDefault (.str ",")
                      silhouetteScore := JsVal.lookup "silhouette_score" fields
                      columnsUsed := env.jsonStringify (JsVal.lookup "columns_used" fields) }) = [] := by
                  intro w'
                  simp [schemaViolations, schemaColumns, schemaCheck, buildInstance,
                    defaulted_withDefault, not_nullish_of_truthy _ hname,
                    not_nullish_of_truthy _ hx, not_nullish_of_truthy _ hy, horig,
                    not_nullish_of_callToString _ _ _ hn, t1, t2, t3, t4, t5, t6, t7, t8, t9]
                generalize hcr : (Visualization.create env _ >>= _) _ = out
                rcases create_bind_cases _ _ _ _ _ hcr with ⟨e, rfl, hwhy⟩ | ⟨row', hv, hd, hst, rfl⟩
                · simp only [List.mem_singleton, exists_eq_left, Except.ok.injEq, JsVal.obj.injEq]
                  rintro rfl
                  simp only [List.mem_singleton, forall_eq, Except.ok.injEq, JsVal.obj.injEq]
                  rintro rfl
                  exfalso
                  rcases hwhy with h | h | h
                  · exact h (hviol _)
                  · exact h hdb
                  · simp only [buildInstance,
                      defaulted_withDefault _ _ _ (by simp : JsVal.str _ ≠ .undefined)] at h
                    rw [hstore] at h
                    cases h
                · simp only [resJson_run, List.mem_singleton, exists_eq_left, Except.ok.injEq,
                    JsVal.obj.injEq]
                  rintro rfl
                  simp only [List.mem_singleton, forall_eq, Except.ok.injEq, JsVal.obj.injEq]
                  rintro rfl
                  simp only [buildInstance,
                    defaulted_withDefault _ _ _ (by simp : JsVal.str _ ≠ .undefined)] at hst
                  rw [hstore] at hst
                  cases hst
                  simp [buildInstance, defaulted_withDefault]
            | _ => simp [ite_run]; rintro rfl; simp

/-- A request whose `name` is an array passes the presence check of the handler, but
the model rejects the instance: the answer is 500 and nothing is inserted. -/
theorem processClustering_rejects_array_name :
    (runHandler (processClustering clusterEnv requestWithArrayName) exampleWorld).sent
      = [⟨500, errorBody (.str "string violation: name cannot be an array or an object")⟩] ∧
    (runHandler (processClustering clusterEnv requestWithArrayName) exampleWorld).world.table
      = exampleWorld.table :=
  ⟨rfl, rfl⟩

theorem processClustering_otherwise (env : Env) (req : Request) (w : World) :
    (∃ resp, (runHandler (processClustering env req) w).sent = [resp] ∧
      (resp.status ≠ 200 → (runHandler (processClustering env req) w).world.table = w.table) ∧
      (resp.status = 200 →
        ∃ row, (runHandler (processClustering env req) w).world.table = w.table ++ [row])) ∧
    (isNullish req.body = false →
      ¬((req.field "name").truthy = true ∧ (req.field "keyColumn").truthy = true ∧
        (req.field "columnX").truthy = true ∧ (req.field "columnY").truthy = true) →
      (runHandler (processClustering env req) w).sent
          = [⟨400, errorBody (.str "Data tidak lengkap")⟩] ∧
        (runHandler (processClustering env req) w).world.table = w.table) ∧
    (∀ filePath,
      (req.field "name").truthy = true → (req.field "keyColumn").truthy = true →
      (req.field "columnX").truthy = true → (req.field "columnY").truthy = true →
      pathJoin [.str env.dirname, .str "../../uploads",
        (req.field "cleanedFilename").or (req.field "originalFilename")] = .ok filePath →
      filePath ∉ w.files → filePath ∉ w.dirs →
      (runHandler (processClustering env req) w).sent
          = [⟨404, errorBody (.str "Dataset file not found")⟩] ∧
        (runHandler (processClustering env req) w).world.table = w.table) := by
  suffices h : ∀ run, runHandler (processClustering env req) w = run →
      (∃ resp, run.sent = [resp] ∧
        (resp.status ≠ 200 → run.world.table = w.table) ∧
        (resp.status = 200 → ∃ row, run.world.table = w.table ++ [row])) ∧
      (isNullish req.body = false →
        ¬((req.field "name").truthy = true ∧ (req.field "keyColumn").truthy = true ∧
          (req.field "columnX").truthy = true ∧ (req.field "columnY").truthy = true) →
        run.sent = [⟨400, errorBody (.str "Data tidak lengkap")⟩] ∧
          run.world.table = w.table) ∧
      (∀ filePath,
        (req.field "name").truthy = true → (req.field "keyColumn").truthy = true →
        (req.field "columnX").truthy = true → (req.field "columnY").truthy = true →
        pathJoin [.str env.dirname, .str "../../uploads",
          (req.field "cleanedFilename").or (req.field "originalFilename")] = .ok filePath →
        filePath ∉ w.files → filePath ∉ w.dirs →
        run.sent = [⟨404, errorBody (.str "Dataset file not found")⟩] ∧
          run.world.table = w.table) from
    h _ rfl
  intro run
  simp only [processClustering, runHandler, Js.tryCatch]
  by_cases hnull : isNullish req.body = true
  · cases hb : req.body <;> simp [hb, isNullish] at hnull <;> simp <;> rintro rfl <;>
      simp [isNullish, Request.field, hb]
  · simp only [getProp_eq_field req (by simpa using hnull), Js.ofExcept_ok_bind, ite_run]
    split_ifs with hc
    · simp; rintro rfl; simp
      simp at hc
      intro _ h1 h2 h3 h4
      simp [h1, h2, h3, h4] at hc
    · simp at hc
      obtain ⟨⟨⟨h1, h2⟩, h3⟩, h4⟩ := hc
      cases hp : pathJoin [JsVal.str env.dirname, JsVal.str "../../uploads",
          (req.field "cleanedFilename").or (req.field "originalFilename")] with
      | error e => simp; rintro rfl; simp [h1, h2, h3, h4]
      | ok filePath =>
        simp [ite_run]
        split_ifs with hex
        · rintro rfl; simp [h1, h2, h3, h4]
        · have hex' : filePath ∉ w.files → filePath ∈ w.dirs := by
            intro hf
            by_contra hd
            exact hex ⟨hf, hd⟩
          cases hn : (req.field "numClusters").callToString "numClusters" with
          | error e =>
            simp; rintro rfl; simp [h1, h2, h3, h4]
            exact hex'
          | ok rendered =>
            simp only [Js.ofExcept_ok_bind, runPythonScript_bind]
            generalize env.engine _ _ = proc
            cases hset : runPythonScript.onClose env proc.code (collect proc.stdout)
                (collect proc.stderr) with
            | error e =>
              simp; rintro rfl; simp [h1, h2, h3, h4]
              exact hex'
            | ok result =>
              cases result with
              | obj fs2 =>
                simp [ite_run]
                split_ifs with hs
                · rintro rfl; simp [h1, h2, h3, h4]
                  exact hex'
                · generalize hcr : (Visualization.create env _ >>= _) _ = out
                  rcases create_bind_cases _ _ _ _ _ hcr with ⟨e, rfl, -⟩ | ⟨row, hv, hd, hst, rfl⟩
                  · simp; rintro rfl; simp [h1, h2, h3, h4]
                    exact hex'
                  · simp; rintro rfl; simp [h1, h2, h3, h4]
                    exact hex'
              | _ =>
                simp [ite_run]; rintro rfl; simp [h1, h2, h3, h4]
                exact hex'

/-! ## Deletion -/

theorem unlinkEach_ok (uploads : String) (fs : List JsVal) :
    ∀ s : St,
      (∀ f ∈ fs, ∃ name, f = .str name ∧ pathJoinStrings [uploads, name] ∉ s.world.dirs) →
      ∃ files', unlinkEach uploads fs s
          = .ok () { s with world := { s.world with files := files' } } ∧
        ∀ p, p ∈ files' ↔
          (p ∈ s.world.files ∧ ∀ name, JsVal.str name ∈ fs → p ≠ pathJoinStrings [uploads, name]) := by
  induction fs with
  | nil =>
    intro s _
    exact ⟨s.world.files, rfl, by simp⟩
  | cons f rest ih =>
    intro s h
    obtain ⟨name, rfl, hdir⟩ := h f (List.mem_cons_self _ _)
    have hrest : ∀ g ∈ rest, ∃ name, g = .str name ∧
        pathJoinStrings [uploads, name] ∉ s.world.dirs :=
      fun g hg => h g (List.mem_cons_of_mem _ hg)
    have hjoin : pathJoin [.str uploads, .str name] = .ok (pathJoinStrings [uploads, name]) := rfl
    simp only [unlinkEach, hjoin, Js.ofExcept_ok_bind, existsSync_bind]
    by_cases hmem : pathJoinStrings [uploads, name] ∈ s.world.files
    · obtain ⟨files', hrun, hfiles⟩ := ih
        { s with world := { s.world with
            files := s.world.files.filter (fun q => q ≠ pathJoinStrings [uploads, name]) } } hrest
      dsimp only at hrun hfiles
      refine ⟨files', ?_, ?_⟩
      · simp [hmem, Js.bind_run, unlinkSync_run]
        simpa using hrun
      · intro p
        rw [hfiles p]
        simp only [List.mem_filter, List.mem_cons, JsVal.str.injEq]
        constructor
        · rintro ⟨⟨hp, hne⟩, hothers⟩
          refine ⟨hp, ?_⟩
          rintro n (rfl | hn)
          · simpa using hne
          · exact hothers n hn
        · rintro ⟨hp, hall⟩
          exact ⟨⟨hp, by simpa using hall name (Or.inl rfl)⟩, fun n hn => hall n (Or.inr hn)⟩
    · obtain ⟨files', hrun, hfiles⟩ := ih s hrest
      refine ⟨files', ?_, ?_⟩
      · simp [hmem, hdir, Js.bind_run, hrun]
      · intro p
        rw [hfiles p]
        simp only [List.mem_cons, JsVal.str.injEq]
        constructor
        · rintro ⟨hp, hothers⟩
          refine ⟨hp, ?_⟩
          rintro n (rfl | hn)
          · rintro rfl
            exact hmem hp
          · exact hothers n hn
        · rintro ⟨hp, hall⟩
          exact ⟨hp, fun n hn => hall n (Or.inr hn)⟩

theorem deleteVisualization_missing (env : Env) (req : Request) (w : World)
    (hdb : w.dbError = none)
    (hfind : Visualization.lookup env w.table req.paramsId = .ok none) :
    (runHandler (deleteVisualization env req) w).sent
        = [⟨404, errorBody (.str "Visualization not found")⟩] ∧
      (runHandler (deleteVisualization env req) w).world = w := by
  simp [deleteVisualization, runHandler, Js.tryCatch, findByPk_bind, hdb, hfind]

theorem deleteVisualization_existing (env : Env) (req : Request) (w : World)
    (v : Visualization) (hdb : w.dbError = none)
    (hfind : Visualization.lookup env w.table req.paramsId = .ok (some v))
    (hfs : ∀ f ∈ filesToDelete v, ∃ name, f = .str name ∧
      pathJoinStrings [uploadsDir env.dirname, name] ∉ w.dirs) :
    (runHandler (deleteVisualization env req) w).sent =
        [⟨200, .obj [("message", .str "Visualization deleted successfully"),
          ("deletedFiles", .arr ([v.datasetFile, v.datasetClean].filter JsVal.truthy))]⟩] ∧
      (runHandler (deleteVisualization env req) w).world.table
        = w.table.filter (fun r => r.id ≠ v.id) ∧
      (∀ p, p ∈ (runHandler (deleteVisualization env req) w).world.files ↔
        (p ∈ w.files ∧ ∀ name, JsVal.str name ∈ filesToDelete v →
          p ≠ pathJoinStrings [uploadsDir env.dirname, name])) ∧
      (runHandler (deleteVisualization env req) w).world.dirs = w.dirs := by
  obtain ⟨files', hrun, hfiles⟩ :=
    unlinkEach_ok (uploadsDir env.dirname) (filesToDelete v) ⟨w, [], []⟩ hfs
  simp only [deleteVisualization, runHandler, Js.tryCatch, findByPk_bind, hdb, hfind]
  rw [Js.bind_run, hrun]
  simp only [destroy_bind, hdb, resJson_run, List.nil_append]
  refine ⟨?_, ?_, ?_, ?_⟩
  · rfl
  · trivial
  · intro p
    simpa using hfiles p
  · trivial

/-! ## Paths under the uploads directory -/

theorem splitSlash_ne_nil (p : List Char) : splitSlash p ≠ [] := by
  cases p with
  | nil => simp [splitSlash]
  | cons c cs =>
    simp only [splitSlash]
    split_ifs
    · simp
    · split <;> simp

theorem splitSlash_append (a b : List Char) :
    splitSlash (a ++ '/' :: b) = splitSlash a ++ splitSlash b := by
  induction a with
  | nil => simp [splitSlash]
  | cons c cs ih =>
    by_cases hc : c = '/'
    · simp [splitSlash, hc, ih]
    · cases hs : splitSlash cs with
      | nil => exact absurd hs (splitSlash_ne_nil cs)
      | cons seg segs => simp [splitSlash, hc, ih, hs]

theorem splitSlash_no_slash (p : List Char) : ∀ seg ∈ splitSlash p, '/' ∉ seg := by
  induction p with
  | nil => simp [splitSlash]
  | cons c cs ih =>
    by_cases hc : c = '/'
    · simp only [splitSlash, if_pos hc, List.mem_cons]
      rintro seg (rfl | hseg)
      · simp
      · exact ih seg hseg
    · simp only [splitSlash, if_neg hc]
      cases hs : splitSlash cs with
      | nil => exact absurd hs (splitSlash_ne_nil cs)
      | cons seg segs =>
        rw [hs] at ih
        simp only [List.mem_cons]
        rintro s (rfl | hseg)
        · have := ih seg (List.mem_cons_self _ _)
          simp only [List.mem_cons, not_or]
          exact ⟨fun h => hc h.symm, this⟩
        · exact ih s (List.mem_cons_of_mem _ hseg)

theorem foldl_normStep_no_dotdot (b : Bool) (segs : List (List Char)) :
    ∀ stack, (∀ s ∈ segs, s ≠ ['.', '.']) →
      List.foldl (normStep b) stack segs = (segs.filter properSegment).reverse ++ stack := by
  induction segs with
  | nil => simp
  | cons seg rest ih =>
    intro stack h
    have hseg : seg ≠ ['.', '.'] := h seg (List.mem_cons_self _ _)
    have hrest : ∀ s ∈ rest, s ≠ ['.', '.'] := fun s hs => h s (List.mem_cons_of_mem _ hs)
    rw [List.foldl_cons, ih _ hrest]
    by_cases hp : seg = [] ∨ seg = ['.']
    · have : properSegment seg = false := by
        simp only [properSegment, decide_eq_false_iff_not, not_and_or, not_not]
        exact hp
      simp [normStep, hp, List.filter_cons, this]
    · have : properSegment seg = true := by
        simp only [properSegment, decide_eq_true_eq]
        exact not_or.mp hp
      simp [normStep, hp, hseg, List.filter_cons, this]

theorem joinSlash_append (A B : List (List Char)) (hA : A ≠ []) (hB : B ≠ []) :
    joinSlash (A ++ B) = joinSlash A ++ '/' :: joinSlash B := by
  induction A with
  | nil => exact absurd rfl hA
  | cons a rest ih =>
    cases rest with
    | nil =>
      cases B with
      | nil => exact absurd rfl hB
      | cons b bs => simp [joinSlash]
    | cons r rs =>
      have := ih (by simp)
      simp only [List.cons_append] at this ⊢
      simp [joinSlash, this]

theorem splitSlash_of_no_slash (s : List Char) (h : '/' ∉ s) : splitSlash s = [s] := by
  induction s with
  | nil => rfl
  | cons c cs ih =>
    have hc : c ≠ '/' := fun hc => h (by simp [hc])
    have hcs : '/' ∉ cs := fun hcs => h (List.mem_cons_of_mem _ hcs)
    simp [splitSlash, hc, ih hcs]

theorem splitSlash_joinSlash (K : List (List Char)) (hK : K ≠ [])
    (hno : ∀ s ∈ K, '/' ∉ s) : splitSlash (joinSlash K) = K := by
  induction K with
  | nil => exact absurd rfl hK
  | cons s rest ih =>
    cases rest with
    | nil => simpa [joinSlash] using splitSlash_of_no_slash s (hno s (List.mem_cons_self _ _))
    | cons t ts =>
      have h1 := splitSlash_of_no_slash s (hno s (List.mem_cons_self _ _))
      have h2 := ih (by simp) (fun x hx => hno x (List.mem_cons_of_mem _ hx))
      simp only [joinSlash, splitSlash_append, h1, h2, List.singleton_append]

theorem normStep_kept (stack : List (List Char)) (seg : List Char)
    (hstack : ∀ s ∈ stack, keptSegment s) (hseg : '/' ∉ seg) :
    ∀ s ∈ normStep false stack seg, keptSegment s := by
  by_cases h1 : seg = [] ∨ seg = ['.']
  · simpa [normStep, h1] using hstack
  · by_cases h2 : seg = ['.', '.']
    · cases stack with
      | nil => simp [normStep, h2]
      | cons top below =>
        by_cases h3 : top = ['.', '.']
        · have := hstack top (List.mem_cons_self _ _)
          exact absurd h3 this.2.2.1
        · simp only [normStep, h2, h3]
          simp only [List.cons_ne_self, List.cons.injEq, and_false, or_self, if_false, if_true,
            reduceCtorEq]
          exact fun s hs => hstack s (List.mem_cons_of_mem _ hs)
    · simp only [normStep, if_neg h1, if_neg h2]
      intro s hs
      rcases List.mem_cons.mp hs with rfl | hs
      · exact ⟨fun h => h1 (Or.inl h), fun h => h1 (Or.inr h), h2, hseg⟩
      · exact hstack s hs

theorem foldl_normStep_kept (segs : List (List Char)) :
    ∀ stack, (∀ s ∈ stack, keptSegment s) → (∀ s ∈ segs, '/' ∉ s) →
      ∀ s ∈ List.foldl (normStep false) stack segs, keptSegment s := by
  induction segs with
  | nil => intro stack h _; simpa using h
  | cons seg rest ih =>
    intro stack hstack hsegs
    rw [List.foldl_cons]
    exact ih _ (normStep_kept stack seg hstack (hsegs seg (List.mem_cons_self _ _)))
      (fun s hs => hsegs s (List.mem_cons_of_mem _ hs))

theorem joinSlash_ne_nil (K : List (List Char)) (hK : K ≠ []) (hne : ∀ s ∈ K, s ≠ []) :
    joinSlash K ≠ [] := by
  cases K with
  | nil => exact absurd rfl hK
  | cons s rest =>
    have hs : s ≠ [] := hne s (List.mem_cons_self _ _)
    cases rest with
    | nil => simpa [joinSlash] using hs
    | cons t ts => simp [joinSlash, hs]

/-- Normalising an absolute path whose kept segments are known and not all empty. -/
theorem normalizeChars_absolute (p : List Char) (K : List (List Char))
    (habs : p.head? = some '/')
    (hK : (List.foldl (normStep false) [] (splitSlash p)).reverse = K)
    (hne : joinSlash K ≠ []) :
    normalizeChars p =
      '/' :: (joinSlash K ++ if p.getLast? = some '/' then ['/'] else []) := by
  have hp : p ≠ [] := by
    intro h
    simp [h] at habs
  simp only [normalizeChars, if_neg hp, habs, decide_True, Bool.not_true, hK, if_neg hne,
    if_true]
  split_ifs <;> simp

theorem keptSegment_uploads : keptSegment "uploads".data := by
  refine ⟨by decide, by decide, by decide, by decide⟩

/-- The kept segments of `__dirname/../../uploads` end in `uploads`. -/
theorem uploads_stack (D : List Char) :
    ∃ S : List (List Char), (∀ s ∈ S, keptSegment s) ∧
      List.foldl (normStep false) [] (splitSlash (D ++ '/' :: "../../uploads".data))
        = "uploads".data :: S := by
  have hsplit : splitSlash "../../uploads".data = [['.', '.'], ['.', '.'], "uploads".data] := by
    decide
  have hD : ∀ s ∈ List.foldl (normStep false) [] (splitSlash D), keptSegment s :=
    foldl_normStep_kept (splitSlash D) [] (by simp) (splitSlash_no_slash D)
  have h1 := normStep_kept _ ['.', '.'] hD (by decide)
  have h2 := normStep_kept _ ['.', '.'] h1 (by decide)
  refine ⟨normStep false (normStep false
    (List.foldl (normStep false) [] (splitSlash D)) ['.', '.']) ['.', '.'], h2, ?_⟩
  rw [splitSlash_append, List.foldl_append, hsplit]
  simp only [List.foldl_cons, List.foldl_nil]
  generalize normStep false (normStep false
    (List.foldl (normStep false) [] (splitSlash D)) ['.', '.']) ['.', '.'] = S
  have hne1 : ¬ ("uploads".data = [] ∨ "uploads".data = ['.']) := by decide
  have hne2 : ¬ ("uploads".data = ['.', '.']) := by decide
  simp only [normStep, if_neg hne1, if_neg hne2]

theorem filter_proper_of_kept (K : List (List Char)) (hK : ∀ s ∈ K, keptSegment s) :
    K.filter properSegment = K := by
  rw [List.filter_eq_self]
  intro s hs
  have := hK s hs
  simp only [properSegment, decide_eq_true_eq]
  exact ⟨this.1, this.2.1⟩

/-- The character form of the two joins the handlers compute, for a name without `..`
and with at least one proper segment. -/
theorem join_under_uploads (D N : List Char) (habs : D.head? = some '/')
    (hnodd : ∀ seg ∈ splitSlash N, seg ≠ ['.', '.'])
    (hproper : ∃ seg ∈ splitSlash N, seg ≠ [] ∧ seg ≠ ['.']) :
    ∃ UD rest : List Char, rest ≠ [] ∧ UD ≠ [] ∧
      normalizeChars (D ++ '/' :: "../../uploads".data) = UD ∧
      normalizeChars (joinSlash [D, "../../uploads".data, N]) = UD ++ '/' :: rest ∧
      normalizeChars (joinSlash [UD, N]) = UD ++ '/' :: rest := by
  obtain ⟨S, hS, hstack⟩ := uploads_stack D
  have hDne : D ≠ [] := by
    intro h
    simp [h] at habs
  have hNne : N ≠ [] := by
    rintro rfl
    obtain ⟨seg, hseg, h1, -⟩ := hproper
    simp [splitSlash] at hseg
    exact h1 hseg
  -- the kept segments of the uploads directory
  have hK0kept : ∀ s ∈ S.reverse ++ ["uploads".data], keptSegment s := by
    intro s hs
    rcases List.mem_append.mp hs with h | h
    · exact hS s (List.mem_reverse.mp h)
    · rw [List.mem_singleton] at h
      rw [h]
      exact keptSegment_uploads
  have hK0ne : S.reverse ++ ["uploads".data] ≠ [] := by simp
  have hJ0 : joinSlash (S.reverse ++ ["uploads".data]) ≠ [] :=
    joinSlash_ne_nil _ hK0ne (fun s hs => (hK0kept s hs).1)
  -- the proper segments of the name
  have hTne : (splitSlash N).filter properSegment ≠ [] := by
    obtain ⟨seg, hseg, h1, h2⟩ := hproper
    intro h
    have : seg ∈ (splitSlash N).filter properSegment := by
      rw [List.mem_filter]
      exact ⟨hseg, by simp [properSegment, h1, h2]⟩
    rw [h] at this
    simp at this
  have hTelem : ∀ s ∈ (splitSlash N).filter properSegment, s ≠ [] := by
    intro s hs
    rw [List.mem_filter] at hs
    have := hs.2
    simp only [properSegment, decide_eq_true_eq] at this
    exact this.1
  have hJT : joinSlash ((splitSlash N).filter properSegment) ≠ [] :=
    joinSlash_ne_nil _ hTne hTelem
  -- the uploads directory
  have hUD : normalizeChars (D ++ '/' :: "../../uploads".data)
      = '/' :: joinSlash (S.reverse ++ ["uploads".data]) := by
    rw [normalizeChars_absolute _ (S.reverse ++ ["uploads".data]) (by simp [habs])
      (by rw [hstack]; simp) hJ0]
    have : (D ++ '/' :: "../../uploads".data).getLast? = some 's' := by
      rw [List.getLast?_append]
      rfl
    simp [this]
  refine ⟨'/' :: joinSlash (S.reverse ++ ["uploads".data]),
    joinSlash ((splitSlash N).filter properSegment) ++
      (if N.getLast? = some '/' then ['/'] else []), ?_, by simp, hUD, ?_, ?_⟩
  · simp [hJT]
  · -- `path.join(__dirname, "../../uploads", name)`
    have hjoin : joinSlash [D, "../../uploads".data, N]
        = (D ++ '/' :: "../../uploads".data) ++ '/' :: N := by
      simp [joinSlash]
    have hfold : (List.foldl (normStep false) []
        (splitSlash ((D ++ '/' :: "../../uploads".data) ++ '/' :: N))).reverse
        = (S.reverse ++ ["uploads".data]) ++ (splitSlash N).filter properSegment := by
      rw [splitSlash_append, List.foldl_append, hstack, foldl_normStep_no_dotdot _ _ _ hnodd]
      simp
    have hlast : ((D ++ '/' :: "../../uploads".data) ++ '/' :: N).getLast? = N.getLast? := by
      rw [List.getLast?_append_of_ne_nil _ (by simp)]
      cases hN : N with
      | nil => exact absurd hN hNne
      | cons c cs => exact List.getLast?_cons_cons
    rw [hjoin, normalizeChars_absolute _ _ (by simp [habs]) hfold
      (by rw [joinSlash_append _ _ hK0ne hTne]; simp), hlast,
      joinSlash_append _ _ hK0ne hTne]
    simp
  · -- `path.join(uploadsDir, name)`
    have hjoin : joinSlash ['/' :: joinSlash (S.reverse ++ ["uploads".data]), N]
        = ('/' :: joinSlash (S.reverse ++ ["uploads".data])) ++ '/' :: N := by
      simp [joinSlash]
    have hsplitUD : splitSlash ('/' :: joinSlash (S.reverse ++ ["uploads".data]))
        = [] :: (S.reverse ++ ["uploads".data]) := by
      simp only [splitSlash, if_true]
      rw [splitSlash_joinSlash _ hK0ne (fun s hs => (hK0kept s hs).2.2.2)]
    have hfoldUD : List.foldl (normStep false) []
        (splitSlash ('/' :: joinSlash (S.reverse ++ ["uploads".data])))
        = "uploads".data :: S := by
      rw [hsplitUD, List.foldl_cons]
      have h0 : normStep false [] [] = [] := by simp [normStep]
      rw [h0, foldl_normStep_no_dotdot _ _ _ (fun s hs => (hK0kept s hs).2.2.1),
        filter_proper_of_kept _ hK0kept]
      simp
    have hfold : (List.foldl (normStep false) []
        (splitSlash (('/' :: joinSlash (S.reverse ++ ["uploads".data])) ++ '/' :: N))).reverse
        = (S.reverse ++ ["uploads".data]) ++ (splitSlash N).filter properSegment := by
      rw [splitSlash_append, List.foldl_append, hfoldUD, foldl_normStep_no_dotdot _ _ _ hnodd]
      simp
    have hlast : (('/' :: joinSlash (S.reverse ++ ["uploads".data])) ++ '/' :: N).getLast?
        = N.getLast? := by
      rw [List.getLast?_append_of_ne_nil _ (by simp)]
      cases hN : N with
      | nil => exact absurd hN hNne
      | cons c cs => exact List.getLast?_cons_cons
    rw [hjoin, normalizeChars_absolute _ _ (by simp) hfold
      (by rw [joinSlash_append _ _ hK0ne hTne]; simp), hlast,
      joinSlash_append _ _ hK0ne hTne]
    simp

theorem uploadsDir_data (dirname : String) (hne : dirname.data ≠ []) :
    (uploadsDir dirname).data = normalizeChars (dirname.data ++ '/' :: "../../uploads".data) := by
  have hU : "../../uploads".data ≠ [] := by decide
  simp [uploadsDir, pathJoinStrings, hne, hU, joinSlash]

theorem joined_path_under_uploads (dirname name : String)
    (habs : dirname.data.head? = some '/')
    (hnodd : ∀ seg ∈ splitSlash name.data, seg ≠ ['.', '.'])
    (hproper : ∃ seg ∈ splitSlash name.data, seg ≠ [] ∧ seg ≠ ['.']) :
    ∃ rest : String, rest ≠ "" ∧
      pathJoinStrings [dirname, "../../uploads", name] = uploadsDir dirname ++ "/" ++ rest ∧
      pathJoinStrings [uploadsDir dirname, name] = uploadsDir dirname ++ "/" ++ rest := by
  obtain ⟨UD, rest, hrest, hUDne, h0, h1, h2⟩ :=
    join_under_uploads dirname.data name.data habs hnodd hproper
  have hD : dirname.data ≠ [] := by
    intro h
    simp [h] at habs
  have hN : name.data ≠ [] := by
    intro h
    obtain ⟨seg, hseg, hs, -⟩ := hproper
    rw [h] at hseg
    simp [splitSlash] at hseg
    exact hs hseg
  have hU : "../../uploads".data ≠ [] := by decide
  have hUD : (uploadsDir dirname).data = UD := by rw [uploadsDir_data dirname hD, h0]
  refine ⟨String.mk rest, ?_, ?_, ?_⟩
  · intro h
    exact hrest (congrArg String.data h)
  · apply String.ext
    simp only [String.data_append, hUD]
    simp [pathJoinStrings, hD, hU, hN, h1]
  · apply String.ext
    simp only [String.data_append, hUD]
    simp [pathJoinStrings, hUDne, hN, hUD, h2]

/-! ## The claims -/

/-- C1: in each of the five engine-calling handlers, when the engine call resolved with a
result object whose `success` is `false`, the handler answers 400 with the body
`{ error: result.error }` and the table of visualizations is left as it was. For
`uploadDataset` the uploaded file is taken to be on disk, as the upload middleware
leaves it. -/
theorem engine_failure_answers_400 (env : Env) (req : Request) (w : World)
    (fields : List (String × JsVal))
    (hfalse : JsVal.lookup "success" fields = .bool false) :
    ((∀ file, req.file = some file → file.path ∈ w.files) →
      (runHandler (uploadDataset env req) w).engineReturned (.obj fields) →
      (runHandler (uploadDataset env req) w).sent
          = [⟨400, errorBody (JsVal.lookup "error" fields)⟩] ∧
        (runHandler (uploadDataset env req) w).world.table = w.table) ∧
    ((runHandler (cleanData env req) w).engineReturned (.obj fields) →
      (runHandler (cleanData env req) w).sent
          = [⟨400, errorBody (JsVal.lookup "error" fields)⟩] ∧
        (runHandler (cleanData env req) w).world.table = w.table) ∧
    ((runHandler (calculateElbow env req) w).engineReturned (.obj fields) →
      (runHandler (calculateElbow env req) w).sent
          = [⟨400, errorBody (JsVal.lookup "error" fields)⟩] ∧
        (runHandler (calculateElbow env req) w).world.table = w.table) ∧
    ((runHandler (processClustering env req) w).engineReturned (.obj fields) →
      (runHandler (processClustering env req) w).sent
          = [⟨400, errorBody (JsVal.lookup "error" fields)⟩] ∧
        (runHandler (processClustering env req) w).world.table = w.table) ∧
    ((runHandler (getClusteringResults env req) w).engineReturned (.obj fields) →
      (runHandler (getClusteringResults env req) w).sent
          = [⟨400, errorBody (JsVal.lookup "error" fields)⟩] ∧
        (runHandler (getClusteringResults env req) w).world.table = w.table) :=
  ⟨fun hdisk hret => uploadDataset_engine_failure env req w fields hfalse hdisk hret,
   cleanData_engine_failure env req w fields hfalse,
   calculateElbow_engine_failure env req w fields hfalse,
   processClustering_engine_failure env req w fields hfalse,
   getClusteringResults_engine_failure env req w fields hfalse⟩

/-- C1 at a concrete request, world and failing engine, for all five handlers. -/
theorem engine_failure_answers_400_witness :
    ((runHandler (uploadDataset failingEnv fullRequest) storedWorld).sent
        = [⟨400, errorBody (.str "Column 'x' is not numeric")⟩] ∧
      (runHandler (uploadDataset failingEnv fullRequest) storedWorld).world.table
        = [exampleRow]) ∧
    ((runHandler (cleanData failingEnv fullRequest) storedWorld).sent
        = [⟨400, errorBody (.str "Column 'x' is not numeric")⟩] ∧
      (runHandler (cleanData failingEnv fullRequest) storedWorld).world.table
        = [exampleRow]) ∧
    ((runHandler (calculateElbow failingEnv fullRequest) storedWorld).sent
        = [⟨400, errorBody (.str "Column 'x' is not numeric")⟩] ∧
      (runHandler (calculateElbow failingEnv fullRequest) storedWorld).world.table
        = [exampleRow]) ∧
    ((runHandler (processClustering failingEnv fullRequest) storedWorld).sent
        = [⟨400, errorBody (.str "Column 'x' is not numeric")⟩] ∧
      (runHandler (processClustering failingEnv fullRequest) storedWorld).world.table
        = [exampleRow]) ∧
    ((runHandler (getClusteringResults failingEnv fullRequest) storedWorld).sent
        = [⟨400, errorBody (.str "Column 'x' is not numeric")⟩] ∧
      (runHandler (getClusteringResults failingEnv fullRequest) storedWorld).world.table
        = [exampleRow]) :=
  have h := engine_failure_answers_400 failingEnv fullRequest storedWorld failureFields rfl
  ⟨h.1 (fun file hf => by cases hf; decide) ⟨_, List.mem_cons_self _ _, rfl⟩,
   h.2.1 ⟨_, List.mem_cons_self _ _, rfl⟩,
   h.2.2.1 ⟨_, List.mem_cons_self _ _, rfl⟩,
   h.2.2.2.1 ⟨_, List.mem_cons_self _ _, rfl⟩,
   h.2.2.2.2 ⟨_, List.mem_cons_self _ _, rfl⟩⟩

/-- C2, refuted as stated: a request with `name`, `keyColumn`, `columnX`, `columnY`
present and a cleaned file that exists, answered by the engine with `success: true`,
creates no record when `originalFilename` is missing: the column `datasetFile` is
declared `allowNull: false`, the instance fails the validation of the model and the
handler answers 500. -/
theorem processClustering_without_originalFilename_creates_nothing :
    (requestWithoutOriginal.field "name").truthy = true ∧
    (requestWithoutOriginal.field "keyColumn").truthy = true ∧
    (requestWithoutOriginal.field "columnX").truthy = true ∧
    (requestWithoutOriginal.field "columnY").truthy = true ∧
    pathJoin [.str clusterEnv.dirname, .str "../../uploads",
      (requestWithoutOriginal.field "cleanedFilename").or
        (requestWithoutOriginal.field "originalFilename")]
      = .ok "/srv/backend/uploads/data.csv" ∧
    "/srv/backend/uploads/data.csv" ∈ exampleWorld.files ∧
    (runHandler (processClustering clusterEnv requestWithoutOriginal) exampleWorld).engineReturned
      (.obj clusterFields) ∧
    JsVal.lookup "success" clusterFields = .bool true ∧
    (runHandler (processClustering clusterEnv requestWithoutOriginal) exampleWorld).world.table
      = exampleWorld.table ∧
    (runHandler (processClustering clusterEnv requestWithoutOriginal) exampleWorld).sent
      = [⟨500, errorBody
          (.str "notNull Violation: Visualization.datasetFile cannot be null")⟩] :=
  ⟨rfl, rfl, rfl, rfl, rfl, by decide, ⟨_, List.mem_cons_self _ _, rfl⟩, rfl, rfl, rfl⟩

/-- C2, amended: `processClustering` is all-or-nothing on the table. When `name`,
`keyColumn`, `columnX`, `columnY` are present, `originalFilename` is not null or
undefined, none of the values written to a `STRING` or `TEXT` column is an array or an
object, the database accepts queries and stores `row` for the instance, and the engine's
cluster result has `success` true, then exactly that one row is appended. The instance
has its fields from the request (`encoding` and `delimiter` defaulting to `utf-8` and
`,`), `datasetFile = originalFilename`, `datasetClean = cleanedFilename || null`, the
silhouette score and the JSON text of `columns_used` from the result, and the response is
the instance with the unmodified result. In every case exactly one response is sent, and
unless it is a 200 the table is unchanged: a missing field gives 400 'Data tidak
lengkap', a missing file 404, an engine failure 400. -/
theorem processClustering_all_or_nothing (env : Env) (req : Request) (w : World) :
    (∀ (fields : List (String × JsVal)) (inst row : Visualization),
      (req.field "name").truthy = true → (req.field "keyColumn").truthy = true →
      (req.field "columnX").truthy = true → (req.field "columnY").truthy = true →
      isNullish (req.field "originalFilename") = false →
      (∀ v ∈ [req.field "name", req.field "originalFilename",
          (req.field "cleanedFilename").or .null, req.field "keyColumn", req.field "columnX",
          req.field "columnY", (req.field "encoding").withDefault (.str "utf-8"),
          (req.field "delimiter").withDefault (.str ","),
          env.jsonStringify (JsVal.lookup "columns_used" fields)],
        isArrayOrObject v = false) →
      inst =
        { id := w.nextId
          name := req.field "name"
          datasetFile := req.field "originalFilename"
          datasetClean := (req.field "cleanedFilename").or .null
          numClusters := req.field "numClusters"
          keyColumn := req.field "keyColumn"
          columnX := req.field "columnX"
          columnY := req.field "columnY"
          encoding := (req.field "encoding").withDefault (.str "utf-8")
          delimiter := (req.field "delimiter").withDefault (.str ",")
          silhouetteScore := JsVal.lookup "silhouette_score" fields
          columnsUsed := env.jsonStringify (JsVal.lookup "columns_used" fields)
          createdAt := w.now
          updatedAt := w.now } →
      w.dbError = none →
      storeRow env inst = .ok row →
      (runHandler (processClustering env req) w).engineReturned (.obj fields) →
      JsVal.lookup "success" fields = .bool true →
      (runHandler (processClustering env req) w).world.table = w.table ++ [row] ∧
        (runHandler (processClustering env req) w).sent =
          [⟨200, .obj [("visualization", inst.toJson env),
            ("clusteringResult", .obj fields)]⟩]) ∧
    (∃ resp, (runHandler (processClustering env req) w).sent = [resp] ∧
      (resp.status ≠ 200 → (runHandler (processClustering env req) w).world.table = w.table) ∧
      (resp.status = 200 →
        ∃ row, (runHandler (processClustering env req) w).world.table = w.table ++ [row])) ∧
    (isNullish req.body = false →
      ¬((req.field "name").truthy = true ∧ (req.field "keyColumn").truthy = true ∧
        (req.field "columnX").truthy = true ∧ (req.field "columnY").truthy = true) →
      (runHandler (processClustering env req) w).sent
          = [⟨400, errorBody (.str "Data tidak lengkap")⟩] ∧
        (runHandler (processClustering env req) w).world.table = w.table) ∧
    (∀ filePath,
      (req.field "name").truthy = true → (req.field "keyColumn").truthy = true →
      (req.field "columnX").truthy = true → (req.field "columnY").truthy = true →
      pathJoin [.str env.dirname, .str "../../uploads",
        (req.field "cleanedFilename").or (req.field "originalFilename")] = .ok filePath →
      filePath ∉ w.files → filePath ∉ w.dirs →
      (runHandler (processClustering env req) w).sent
          = [⟨404, errorBody (.str "Dataset file not found")⟩] ∧
        (runHandler (processClustering env req) w).world.table = w.table) ∧
    (∀ fields : List (String × JsVal),
      JsVal.lookup "success" fields = .bool false →
      (runHandler (processClustering env req) w).engineReturned (.obj fields) →
      (runHandler (processClustering env req) w).sent
          = [⟨400, errorBody (JsVal.lookup "error" fields)⟩] ∧
        (runHandler (processClustering env req) w).world.table = w.table) :=
  ⟨fun fields inst row hname hkey hx hy horig htext hinst hdb hstore hret hsuc =>
      have h := processClustering_success env req w fields inst row hname hkey hx hy horig
        htext hinst hdb hstore hret hsuc
      ⟨h.1, h.2.2⟩,
   (processClustering_otherwise env req w).1,
   (processClustering_otherwise env req w).2.1,
   (processClustering_otherwise env req w).2.2,
   fun fields hfalse hret => processClustering_engine_failure env req w fields hfalse hret⟩

/-- C2 amended, at concrete requests: a successful one appends the one record
`createdRow` and answers with it; an empty body, a missing file and a failing engine
leave the table as it was. -/
theorem processClustering_all_or_nothing_witness :
    ((runHandler (processClustering clusterEnv fullRequest) storedWorld).world.table
        = storedWorld.table ++ [createdRow] ∧
      (runHandler (processClustering clusterEnv fullRequest) storedWorld).sent =
        [⟨200, .obj [("visualization", createdRow.toJson clusterEnv),
          ("clusteringResult", .obj clusterFields)]⟩]) ∧
    ((runHandler (processClustering clusterEnv (bodyRequest (.obj []))) storedWorld).sent
        = [⟨400, errorBody (.str "Data tidak lengkap")⟩] ∧
      (runHandler (processClustering clusterEnv (bodyRequest (.obj []))) storedWorld).world.table
        = storedWorld.table) ∧
    ((runHandler (processClustering clusterEnv fullRequest) worldWithoutUpload).sent
        = [⟨404, errorBody (.str "Dataset file not found")⟩] ∧
      (runHandler (processClustering clusterEnv fullRequest) worldWithoutUpload).world.table
        = worldWithoutUpload.table) ∧
    ((runHandler (processClustering failingEnv fullRequest) storedWorld).sent
        = [⟨400, errorBody (JsVal.lookup "error" failureFields)⟩] ∧
      (runHandler (processClustering failingEnv fullRequest) storedWorld).world.table
        = storedWorld.table) :=
  ⟨(processClustering_all_or_nothing clusterEnv fullRequest storedWorld).1 clusterFields
      createdRow createdRow rfl rfl rfl rfl rfl (by decide) rfl rfl rfl
      ⟨_, List.mem_cons_self _ _, rfl⟩ rfl,
   (processClustering_all_or_nothing clusterEnv (bodyRequest (.obj [])) storedWorld).2.2.1
      rfl (by decide),
   (processClustering_all_or_nothing clusterEnv fullRequest worldWithoutUpload).2.2.2.1
      "/srv/backend/uploads/data.csv" rfl rfl rfl rfl rfl (by decide) (by decide),
   (processClustering_all_or_nothing failingEnv fullRequest storedWorld).2.2.2.2
      failureFields rfl ⟨_, List.mem_cons_self _ _, rfl⟩⟩

/-- C3, violated by `uploadDataset`: when the engine reports a failure and the uploaded
file cannot be unlinked, the `unlinkSync` in the `try` block throws, the one in the
`catch` block throws again, and the handler ends with an escaped exception and without
any response. -/
theorem uploadDataset_unlink_failure_escapes :
    (runHandler (uploadDataset failingEnv fullRequest) worldWithoutUpload).sent = [] ∧
    (runHandler (uploadDataset failingEnv fullRequest) worldWithoutUpload).escaped
      = some ⟨"ENOENT: no such file or directory, unlink '/srv/backend/uploads/data.csv'"⟩ ∧
    (runHandler (uploadDataset failingEnv fullRequest) worldWithoutUpload).engineReturned
      (.obj failureFields) :=
  ⟨rfl, rfl, ⟨_, List.mem_cons_self _ _, rfl⟩⟩

/-- C4: every engine invocation made by `processClustering` and by
`getClusteringResults` is of the command `cluster` with exactly seven arguments, in the
order file path, key column, column X, column Y, `numClusters.toString()`, encoding,
delimiter; in `processClustering` the encoding and delimiter are the request's, or
`utf-8` and `,` when the body omits them. -/
theorem cluster_command_arguments (env : Env) (req : Request) (w : World) :
    (∀ c ∈ (runHandler (processClustering env req) w).calls,
      c.command = "cluster" ∧ c.args.length = 7 ∧
      ∃ filePath rendered encoding delimiter,
        pathJoin [.str env.dirname, .str "../../uploads",
          (req.field "cleanedFilename").or (req.field "originalFilename")] = .ok filePath ∧
        (req.field "numClusters").callToString "numClusters" = .ok rendered ∧
        c.args = [.str filePath, req.field "keyColumn", req.field "columnX",
          req.field "columnY", .str rendered, encoding, delimiter] ∧
        (req.field "encoding" = .undefined → encoding = .str "utf-8") ∧
        (req.field "encoding" ≠ .undefined → encoding = req.field "encoding") ∧
        (req.field "delimiter" = .undefined → delimiter = .str ",") ∧
        (req.field "delimiter" ≠ .undefined → delimiter = req.field "delimiter")) ∧
    (∀ c ∈ (runHandler (getClusteringResults env req) w).calls,
      c.command = "cluster" ∧ c.args.length = 7 ∧
      ∃ v filePath rendered,
        Visualization.lookup env w.table req.paramsId = .ok (some v) ∧
        pathJoin [.str env.dirname, .str "../../uploads", v.datasetClean] = .ok filePath ∧
        v.numClusters.callToString "visualization.numClusters" = .ok rendered ∧
        c.args = [.str filePath, v.keyColumn, v.columnX, v.columnY, .str rendered,
          v.encoding, v.delimiter]) := by
  refine ⟨fun c hc => ?_, getClusteringResults_cluster_arguments env req w⟩
  obtain ⟨hcmd, hlen, filePath, rendered, hp, hn, hargs⟩ :=
    processClustering_cluster_arguments env req w c hc
  refine ⟨hcmd, hlen, filePath, rendered, _, _, hp, hn, hargs, ?_, ?_, ?_, ?_⟩
  · intro h
    rw [h]
    rfl
  · exact withDefault_defined _ _
  · intro h
    rw [h]
    rfl
  · exact withDefault_defined _ _

/-- C4 at concrete requests: the one call each handler makes. -/
theorem cluster_command_arguments_witness :
    (∃ c ∈ (runHandler (processClustering clusterEnv fullRequest) storedWorld).calls,
      c.command = "cluster" ∧
      c.args = [.str "/srv/backend/uploads/data.csv", .str "id", .str "x", .str "y",
        .str "3", .str "utf-8", .str ","]) ∧
    (∃ c ∈ (runHandler (getClusteringResults clusterEnv fullRequest) storedWorld).calls,
      c.command = "cluster" ∧ c.args.length = 7) :=
  have h := cluster_command_arguments clusterEnv fullRequest storedWorld
  ⟨⟨_, List.mem_cons_self _ _, (h.1 _ (List.mem_cons_self _ _)).1, rfl⟩,
   ⟨_, List.mem_cons_self _ _, (h.2 _ (List.mem_cons_self _ _)).1,
    (h.2 _ (List.mem_cons_self _ _)).2.1⟩⟩

/-- C5, refuted as stated: a clustering request stores the `originalFilename`
`../src/server.js` as the record's `datasetFile`; deleting that record answers 200 and
removes `/srv/backend/src/server.js`, a file that is not in the uploads directory, so a
file other than those in the uploads directory named by the record is changed. -/
theorem deleteVisualization_removes_file_outside_uploads :
    (runHandler (processClustering clusterEnv traversalRequest) worldWithSource).sent.map
        (fun r => r.status) = [200] ∧
    (runHandler (processClustering clusterEnv traversalRequest) worldWithSource).world.table.map
        (fun v => (toString v.id, v.datasetFile, v.datasetClean))
      = [("1", .str "../src/server.js", .str "data.csv")] ∧
    (runHandler (processClustering clusterEnv traversalRequest) worldWithSource).world.files
      = ["/srv/backend/uploads/data.csv", "/srv/backend/src/server.js"] ∧
    (runHandler (deleteVisualization clusterEnv fullRequest)
        (runHandler (processClustering clusterEnv traversalRequest) worldWithSource).world).sent
      = [⟨200, .obj [("message", .str "Visualization deleted successfully"),
          ("deletedFiles", .arr [.str "../src/server.js", .str "data.csv"])]⟩] ∧
    (runHandler (deleteVisualization clusterEnv fullRequest)
        (runHandler (processClustering clusterEnv traversalRequest) worldWithSource).world).world.files
      = [] ∧
    ¬ ((uploadsDir clusterEnv.dirname).data <+: "/srv/backend/src/server.js".data) :=
  ⟨rfl, rfl, rfl, rfl, rfl, by decide⟩

/-- C5, amended: `deleteVisualization` on an id for which the database finds no record
answers 404 'Visualization not found' and changes nothing. On a record the database
finds, when it accepts queries and the stored file names are strings that do not denote
directories, it answers 200 with `deletedFiles` the record's truthy `datasetFile` and
`datasetClean` in that order, the table afterwards is the old one without the rows of
that key, a path is a file afterwards exactly when it was one before and is not
`path.join(uploadsDir, name)` for one of those names, and the directories are unchanged.
Such a path lies inside the uploads directory when `__dirname` is absolute and the name
has no `..` segment and at least one segment other than the empty one and `.`; the
handler does not check the names. -/
theorem deleteVisualization_removes_record_and_files (env : Env) (req : Request) (w : World)
    (hdb : w.dbError = none) :
    (Visualization.lookup env w.table req.paramsId = .ok none →
      (runHandler (deleteVisualization env req) w).sent
          = [⟨404, errorBody (.str "Visualization not found")⟩] ∧
        (runHandler (deleteVisualization env req) w).world = w) ∧
    (∀ v, Visualization.lookup env w.table req.paramsId = .ok (some v) →
      (∀ f ∈ filesToDelete v, ∃ name, f = .str name ∧
        pathJoinStrings [uploadsDir env.dirname, name] ∉ w.dirs) →
      (runHandler (deleteVisualization env req) w).sent =
          [⟨200, .obj [("message", .str "Visualization deleted successfully"),
            ("deletedFiles", .arr ([v.datasetFile, v.datasetClean].filter JsVal.truthy))]⟩] ∧
        (runHandler (deleteVisualization env req) w).world.table
          = w.table.filter (fun r => r.id ≠ v.id) ∧
        (∀ p, p ∈ (runHandler (deleteVisualization env req) w).world.files ↔
          (p ∈ w.files ∧ ∀ name, JsVal.str name ∈ filesToDelete v →
            p ≠ pathJoinStrings [uploadsDir env.dirname, name])) ∧
        (runHandler (deleteVisualization env req) w).world.dirs = w.dirs ∧
        (env.dirname.data.head? = some '/' →
          ∀ name, JsVal.str name ∈ filesToDelete v →
            (∀ seg ∈ splitSlash name.data, seg ≠ ['.', '.']) →
            (∃ seg ∈ splitSlash name.data, seg ≠ [] ∧ seg ≠ ['.']) →
            ∃ rest : String, rest ≠ "" ∧
              pathJoinStrings [uploadsDir env.dirname, name]
                = uploadsDir env.dirname ++ "/" ++ rest)) :=
  ⟨fun hfind => deleteVisualization_missing env req w hdb hfind,
   fun v hfind hfs =>
    have h := deleteVisualization_existing env req w v hdb hfind hfs
    ⟨h.1, h.2.1, h.2.2.1, h.2.2.2, fun habs name _ hnodd hproper =>
      have ⟨rest, hne, _, hjoin⟩ := joined_path_under_uploads env.dirname name habs hnodd hproper
      ⟨rest, hne, hjoin⟩⟩⟩

/-- C5 amended, at a stored record with two files (with the id written `1` and `01`),
and at an id that no record has. -/
theorem deleteVisualization_removes_record_and_files_witness :
    ((runHandler (deleteVisualization clusterEnv fullRequest) storedWorld).sent =
        [⟨200, .obj [("message", .str "Visualization deleted successfully"),
          ("deletedFiles", .arr [.str "raw.csv", .str "data.csv"])]⟩] ∧
      (runHandler (deleteVisualization clusterEnv fullRequest) storedWorld).world.table
        = storedWorld.table.filter (fun r => r.id ≠ exampleRow.id) ∧
      (∀ p, p ∈ (runHandler (deleteVisualization clusterEnv fullRequest) storedWorld).world.files
        ↔ (p ∈ storedWorld.files ∧ ∀ name, JsVal.str name ∈ filesToDelete exampleRow →
            p ≠ pathJoinStrings [uploadsDir clusterEnv.dirname, name])) ∧
      (runHandler (deleteVisualization clusterEnv fullRequest) storedWorld).world.dirs
        = storedWorld.dirs) ∧
    ((runHandler (deleteVisualization clusterEnv paddedIdRequest) storedWorld).sent =
        [⟨200, .obj [("message", .str "Visualization deleted successfully"),
          ("deletedFiles", .arr [.str "raw.csv", .str "data.csv"])]⟩] ∧
      (runHandler (deleteVisualization clusterEnv paddedIdRequest) storedWorld).world.table
        = []) ∧
    ((runHandler (deleteVisualization clusterEnv unknownIdRequest) storedWorld).sent
        = [⟨404, errorBody (.str "Visualization not found")⟩] ∧
      (runHandler (deleteVisualization clusterEnv unknownIdRequest) storedWorld).world
        = storedWorld) :=
  have hfs : ∀ f ∈ filesToDelete exampleRow, ∃ name, f = .str name ∧
      pathJoinStrings [uploadsDir clusterEnv.dirname, name] ∉ storedWorld.dirs := by
    intro f hf
    simp only [filesToDelete, exampleRow, List.filter, JsVal.truthy] at hf
    rcases List.mem_cons.mp hf with rfl | hf
    · exact ⟨"raw.csv", rfl, by decide⟩
    · rcases List.mem_cons.mp hf with rfl | hf
      · exact ⟨"data.csv", rfl, by decide⟩
      · exact absurd hf (List.not_mem_nil _)
  have h1 := (deleteVisualization_removes_record_and_files clusterEnv fullRequest
    storedWorld rfl).2 exampleRow rfl hfs
  have h2 := (deleteVisualization_removes_record_and_files clusterEnv paddedIdRequest
    storedWorld rfl).2 exampleRow rfl hfs
  ⟨⟨h1.1, h1.2.1, h1.2.2.1, h1.2.2.2.1⟩, ⟨h2.1, h2.2.1⟩,
   (deleteVisualization_removes_record_and_files clusterEnv unknownIdRequest storedWorld rfl).1
    rfl⟩

/-- C6: `uploadDataset` without an uploaded file answers 400 'No file uploaded', invokes
no engine and changes nothing. With an uploaded file that is on disk, exactly one
response is sent and the file is on disk afterwards exactly when that response is a 200:
a result with `success` true gives the stored filename with the seven engine fields
copied and keeps the file; a result with `success` false gives 400 and a rejected engine
call gives 500, both with the file removed. -/
theorem uploadDataset_keeps_file_iff_200 (env : Env) (req : Request) (w : World) :
    (req.file = none →
      (runHandler (uploadDataset env req) w).sent
          = [⟨400, errorBody (.str "No file uploaded")⟩] ∧
        (runHandler (uploadDataset env req) w).calls = [] ∧
        (runHandler (uploadDataset env req) w).world = w) ∧
    (∀ file, req.file = some file → file.path ∈ w.files →
      (∃ resp, (runHandler (uploadDataset env req) w).sent = [resp] ∧
        (resp.status = 200 ↔ file.path ∈ (runHandler (uploadDataset env req) w).world.files)) ∧
      (∀ fields, (runHandler (uploadDataset env req) w).engineReturned (.obj fields) →
        JsVal.lookup "success" fields = .bool true →
        (runHandler (uploadDataset env req) w).sent = [⟨200, .obj [
          ("filename", .str file.filename),
          ("columns", JsVal.lookup "columns" fields),
          ("numeric_columns", JsVal.lookup "numeric_columns" fields),
          ("null_info", JsVal.lookup "null_info" fields),
          ("has_nulls", JsVal.lookup "has_nulls" fields),
          ("has_duplicates", JsVal.lookup "has_duplicates" fields),
          ("num_rows", JsVal.lookup "num_rows" fields),
          ("num_duplicates", JsVal.lookup "num_duplicates" fields)]⟩] ∧
        file.path ∈ (runHandler (uploadDataset env req) w).world.files) ∧
      (∀ fields, (runHandler (uploadDataset env req) w).engineReturned (.obj fields) →
        JsVal.lookup "success" fields = .bool false →
        (runHandler (uploadDataset env req) w).sent
          = [⟨400, errorBody (JsVal.lookup "error" fields)⟩] ∧
        file.path ∉ (runHandler (uploadDataset env req) w).world.files) ∧
      (∀ e, (runHandler (uploadDataset env req) w).engineRejected e →
        (runHandler (uploadDataset env req) w).sent = [⟨500, errorBody (.str e.message)⟩] ∧
        file.path ∉ (runHandler (uploadDataset env req) w).world.files)) := by
  refine ⟨fun hf => ?_, fun file hf hdisk => uploadDataset_with_file env req w file hf hdisk⟩
  simp [uploadDataset, runHandler, Js.tryCatch, hf]

/-- C6 at concrete requests: no file, a successful engine, a failing engine and a
crashing engine. -/
theorem uploadDataset_keeps_file_iff_200_witness :
    ((runHandler (uploadDataset clusterEnv (bodyRequest (.obj []))) storedWorld).sent
        = [⟨400, errorBody (.str "No file uploaded")⟩] ∧
      (runHandler (uploadDataset clusterEnv (bodyRequest (.obj []))) storedWorld).calls = [] ∧
      (runHandler (uploadDataset clusterEnv (bodyRequest (.obj []))) storedWorld).world
        = storedWorld) ∧
    ((runHandler (uploadDataset clusterEnv fullRequest) storedWorld).sent = [⟨200, .obj [
        ("filename", .str "data.csv"),
        ("columns", JsVal.lookup "columns" clusterFields),
        ("numeric_columns", JsVal.lookup "numeric_columns" clusterFields),
        ("null_info", JsVal.lookup "null_info" clusterFields),
        ("has_nulls", JsVal.lookup "has_nulls" clusterFields),
        ("has_duplicates", JsVal.lookup "has_duplicates" clusterFields),
        ("num_rows", JsVal.lookup "num_rows" clusterFields),
        ("num_duplicates", JsVal.lookup "num_duplicates" clusterFields)]⟩] ∧
      "/srv/backend/uploads/data.csv" ∈
        (runHandler (uploadDataset clusterEnv fullRequest) storedWorld).world.files) ∧
    ((runHandler (uploadDataset failingEnv fullRequest) storedWorld).sent
        = [⟨400, errorBody (JsVal.lookup "error" failureFields)⟩] ∧
      "/srv/backend/uploads/data.csv" ∉
        (runHandler (uploadDataset failingEnv fullRequest) storedWorld).world.files) ∧
    ((runHandler (uploadDataset crashingEnv fullRequest) storedWorld).sent
        = [⟨500, errorBody (.str "Traceback")⟩] ∧
      "/srv/backend/uploads/data.csv" ∉
        (runHandler (uploadDataset crashingEnv fullRequest) storedWorld).world.files) :=
  ⟨(uploadDataset_keeps_file_iff_200 clusterEnv (bodyRequest (.obj [])) storedWorld).1 rfl,
   ((uploadDataset_keeps_file_iff_200 clusterEnv fullRequest storedWorld).2
      { path := "/srv/backend/uploads/data.csv", filename := "data.csv" } rfl
      (by decide)).2.1 clusterFields ⟨_, List.mem_cons_self _ _, rfl⟩ rfl,
   ((uploadDataset_keeps_file_iff_200 failingEnv fullRequest storedWorld).2
      { path := "/srv/backend/uploads/data.csv", filename := "data.csv" } rfl
      (by decide)).2.2.1 failureFields ⟨_, List.mem_cons_self _ _, rfl⟩ rfl,
   ((uploadDataset_keeps_file_iff_200 crashingEnv fullRequest storedWorld).2
      { path := "/srv/backend/uploads/data.csv", filename := "data.csv" } rfl
      (by decide)).2.2.2 ⟨"Traceback"⟩ ⟨_, List.mem_cons_self _ _, rfl⟩⟩

/-- C7, violated: for an engine result with `success` true and no `rows` field the
success response of `cleanData` carries `sample_rows: undefined`, not the empty list; the
defaulted value `result.rows || []` is computed but not sent. The fields
`numeric_columns` and `columns_dropped` do default to the empty list. -/
theorem cleanData_sample_rows_not_defaulted :
    JsVal.lookup "rows" cleanFieldsWithoutRows = .undefined ∧
    (runHandler (cleanData cleanEnv fullRequest) storedWorld).engineReturned
      (.obj cleanFieldsWithoutRows) ∧
    (runHandler (cleanData cleanEnv fullRequest) storedWorld).sent =
      [⟨200, .obj [
        ("success", .bool true),
        ("cleaned_filename", .str "cleaned_data.csv"),
        ("columns", .arr [.str "id", .str "x"]),
        ("numeric_columns", .arr []),
        ("rows_removed", .num "0"),
        ("columns_dropped", .arr []),
        ("sample_rows", .undefined)]⟩] :=
  ⟨rfl, ⟨_, List.mem_cons_self _ _, rfl⟩, rfl⟩

/-- C8, violated: a record created by a successful `processClustering` request without
a cleaned file stores `datasetClean = null`; `getClusteringResults` on its id joins the
uploads directory with that `null`, which throws, so it answers 500 and never re-runs
the engine on the original file that `processClustering` clustered. -/
theorem getClusteringResults_fails_without_cleaned_file :
    (runHandler (processClustering clusterEnv fullRequest) exampleWorld).sent.map
        (fun r => r.status) = [200] ∧
    (runHandler (processClustering clusterEnv fullRequest) exampleWorld).calls.map
        (fun c => c.args.head?) = [some (.str "/srv/backend/uploads/data.csv")] ∧
    (runHandler (processClustering clusterEnv fullRequest) exampleWorld).world.table.map
        (fun v => (toString v.id, v.datasetFile, v.datasetClean))
      = [("1", .str "data.csv", .null)] ∧
    (runHandler (getClusteringResults clusterEnv fullRequest)
        (runHandler (processClustering clusterEnv fullRequest) exampleWorld).world).calls
      = [] ∧
    (runHandler (getClusteringResults clusterEnv fullRequest)
        (runHandler (processClustering clusterEnv fullRequest) exampleWorld).world).sent
      = [⟨500, errorBody
          (.str "The \"path\" argument must be of type string. Received null")⟩] :=
  ⟨rfl, rfl, rfl, rfl, rfl⟩

/-- C9: `runPythonScript` settles exactly once (a step either returns or throws), as the
exit code and the collected output decide: it resolves with a value exactly when the code
is 0 and the collected stdout parses to that value; a non-zero code rejects with the
collected stderr, or with 'Python script failed' when that is empty; code 0 with
unparsable stdout rejects with 'Failed to parse Python output: ' followed by stdout. -/
theorem runPythonScript_settles (env : Env) (command : String) (args : List JsVal) (s : St) :
    (∀ v, (∃ s', runPythonScript env command args s = .ok v s') ↔
        ((env.engine command args).code = some 0 ∧
          env.jsonParse (collect (env.engine command args).stdout) = some v)) ∧
    ((env.engine command args).code ≠ some 0 →
        ∃ s', runPythonScript env command args s =
          .threw ⟨if collect (env.engine command args).stderr = "" then "Python script failed"
                  else collect (env.engine command args).stderr⟩ s') ∧
    ((env.engine command args).code = some 0 →
        env.jsonParse (collect (env.engine command args).stdout) = none →
        ∃ s', runPythonScript env command args s =
          .threw ⟨"Failed to parse Python output: " ++
                  collect (env.engine command args).stdout⟩ s') := by
  refine ⟨fun v => ?_, fun hc => ?_, fun hc hp => ?_⟩
  · by_cases hc : (env.engine command args).code = some 0
    · cases hp : env.jsonParse (collect (env.engine command args).stdout) with
      | none => simp [runPythonScript, runPythonScript.onClose, hc, hp]
      | some r =>
          simp only [runPythonScript, runPythonScript.onClose, hc, hp]
          constructor
          · rintro ⟨s', h⟩
            simp at h
            exact ⟨trivial, by rw [h.1]⟩
          · rintro ⟨-, h⟩
            cases h
            simp
    · simp [runPythonScript, runPythonScript.onClose, hc]
  · by_cases he : collect (env.engine command args).stderr = ""
    · simp [runPythonScript, runPythonScript.onClose, hc, he]
    · simp [runPythonScript, runPythonScript.onClose, hc, he]
  · simp [runPythonScript, runPythonScript.onClose, hc, hp]

/-- C9 at three processes: one that exits with code 2 after writing two chunks to
stderr, one that exits with code 0 after printing text that parses, and one that exits
with code 0 without printing anything. -/
theorem runPythonScript_settles_witness :
    (∃ s', runPythonScript crashingEnv "cluster" [] ⟨exampleWorld, [], []⟩
        = .threw ⟨"Traceback"⟩ s') ∧
    (∃ s', runPythonScript clusterEnv "cluster" [] ⟨exampleWorld, [], []⟩
        = .ok (.obj clusterFields) s') ∧
    (∃ s', runPythonScript
        (exampleEnv { code := some 0, stdout := [], stderr := [], written := [] } none)
        "cluster" [] ⟨exampleWorld, [], []⟩
        = .threw ⟨"Failed to parse Python output: "⟩ s') :=
  ⟨(runPythonScript_settles crashingEnv "cluster" [] ⟨exampleWorld, [], []⟩).2.1 (by decide),
   ((runPythonScript_settles clusterEnv "cluster" [] ⟨exampleWorld, [], []⟩).1
      (.obj clusterFields)).mpr ⟨rfl, rfl⟩,
   (runPythonScript_settles
      (exampleEnv { code := some 0, stdout := [], stderr := [], written := [] } none)
      "cluster" [] ⟨exampleWorld, [], []⟩).2.2 rfl rfl⟩

/-- C10, refuted as stated: for the file name `../src/server.js` the joined path is
`/srv/backend/src/server.js`, of which the uploads directory `/srv/backend/uploads` is
no prefix, and `cleanData` checks that path and hands it to the engine. -/
theorem path_traversal_leaves_uploads :
    ¬ ((uploadsDir "/srv/backend/src/controllers").data <+:
        (pathJoinStrings
          ["/srv/backend/src/controllers", "../../uploads", "../src/server.js"]).data) ∧
    (runHandler (cleanData clusterEnv (bodyRequest (.obj [("filename", .str "../src/server.js")])))
        worldWithSource).calls.map (fun c => c.args.head?)
      = [some (.str "/srv/backend/src/server.js")] :=
  ⟨by decide, rfl⟩

/-- C10, amended: for an absolute `__dirname` and a name whose `/`-separated segments
contain no `..` and at least one segment other than the empty one and `.`, both joins the
handlers compute, `path.join(__dirname, "../../uploads", name)` and
`path.join(uploadsDir, name)`, are the uploads directory followed by `/` and a non-empty
remainder. -/
theorem joined_paths_stay_under_uploads (dirname name : String)
    (habs : dirname.data.head? = some '/')
    (hnodd : ∀ seg ∈ splitSlash name.data, seg ≠ ['.', '.'])
    (hproper : ∃ seg ∈ splitSlash name.data, seg ≠ [] ∧ seg ≠ ['.']) :
    ∃ rest : String, rest ≠ "" ∧
      pathJoinStrings [dirname, "../../uploads", name] = uploadsDir dirname ++ "/" ++ rest ∧
      pathJoinStrings [uploadsDir dirname, name] = uploadsDir dirname ++ "/" ++ rest :=
  joined_path_under_uploads dirname name habs hnodd hproper

/-- C10 amended, at the name `sub/./data.csv`. -/
theorem joined_paths_stay_under_uploads_witness :
    ∃ rest : String, rest ≠ "" ∧
      pathJoinStrings ["/srv/backend/src/controllers", "../../uploads", "sub/./data.csv"]
        = uploadsDir "/srv/backend/src/controllers" ++ "/" ++ rest ∧
      pathJoinStrings [uploadsDir "/srv/backend/src/controllers", "sub/./data.csv"]
        = uploadsDir "/srv/backend/src/controllers" ++ "/" ++ rest :=
  joined_paths_stay_under_uploads "/srv/backend/src/controllers" "sub/./data.csv"
    (by decide) (by decide) (by decide)

end VisualizationController
